import Mathlib

/-!
# Occupancy calculator of `elastic_tools`

A shallow embedding of `maximizer/src/elastic_kernel/occupancy_tools/OccupancyCalculator.h`.

Conventions of the embedding.

* A `size_t` value is a natural number.  Products and quotients of `size_t` values are taken
  exactly, and so are the sums of the shrink passes: the statements about them are about inputs
  on which the 64-bit computation does not wrap.  The sum of `getNumRegistersPerBlock`, which the
  search can reach with a block size next to `2 ^ 64`, wraps as in the source.
* The two places of `reduceBlocksToFitOnGPU` where the source changes the width or the signedness
  of a value are modelled with their machine behaviour: the `size_t` difference stored in an
  `int` (`toInt32`), and the `double` stored back in a `size_t` followed by an unsigned
  subtraction (`toSizeT`).
* The loop of `getOptimalBlockSize` is a step function (`searchStep`) iterated under a bound on
  the number of loop tests (`searchLoop`); its unsigned decrement wraps modulo `2 ^ 64`
  (`wrapSub`).
* The two occupancy ratios, `double` in the source, are exact rationals.
* `KernelScheduler`, which holds the policies, is not part of the sources at hand either; the
  re-tuned pool and the average occupancy that the statements need are modelled from the
  specification.
* `OccupancyData.h` and `OccupancyLimits.h` are not part of the sources at hand.  The helpers they
  declare are modelled from the specification; each such definition says so.
* A division by zero, which stops the C++ program, evaluates to `0` here (the convention of
  `Nat`); the statements below that depend on a divisor assume it positive.
-/

namespace OccupancyCalculator

/-- Number of values of a 64-bit `size_t`. -/
def SIZE_MOD : Nat := 2 ^ 64

/-- Largest value of a 64-bit `size_t`. -/
def SIZE_MAX : Nat := 2 ^ 64 - 1

/-- The fields of `cudaDeviceProp` the calculator reads, and the two per-architecture values the
absent helper tables derive from it (the specification lists both in its Device Capability
Profile). -/
structure cudaDeviceProp where
  multiProcessorCount : Nat
  maxThreadsPerMultiProcessor : Nat
  warpSize : Nat
  totalGlobalMem : Nat
  sharedMemPerMultiprocessor : Nat
  regsPerMultiprocessor : Nat
  warpAllocationGranularity : Nat
  maxBlocksPerMultiProcessor : Nat
  deriving DecidableEq, Repr

/-- The fields of `cudaFuncAttributes` the calculator reads. -/
structure cudaFuncAttributes where
  numRegs : Nat
  sharedSizeBytes : Nat
  maxThreadsPerBlock : Nat
  deriving DecidableEq, Repr

/-- Launch geometry: `LaunchParameters(threads, blocks)` with its two getters and `setBlocks`. -/
structure LaunchParameters where
  threadsPerBlock : Nat
  blocksPerGrid : Nat
  deriving DecidableEq, Repr

/-- Resource Limit Set: the four getters `limitUsage` calls on a `KernelLimits`. -/
structure KernelLimits where
  numBlocks : Nat
  sharedMem : Nat
  numThreads : Nat
  numRegisters : Nat
  deriving DecidableEq, Repr

/-- Block usage snapshot, `BlockUsage(sharedMemory, numThreads, numRegisters, blocksPerSM)`. -/
structure BlockUsage where
  sharedMem : Nat
  numThreads : Nat
  numRegisters : Nat
  numBlocksPerSM : Nat
  deriving DecidableEq, Repr

/-! ## Helpers that are declared outside the sources at hand -/

/-- Modelled from the spec: `min2` (not under src/), the smaller of two values. -/
def min2 (a b : Nat) : Nat := min a b

/-- Modelled from the spec: `min3` (not under src/), "the minimum of three independently-computed
ceilings". -/
def min3 (a b c : Nat) : Nat := min a (min b c)

/-- Modelled from the spec: `ceilTo` (not under src/), a count "rounded further up to the
device's warp-allocation granularity": the next multiple of `g` at or above `x`. -/
def ceilTo (x g : Nat) : Nat := (x + (g - 1)) / g * g

/-- Modelled from the spec: `getWarpAllocationGranularity` (not under src/), the device's
warp-allocation granularity. -/
def getWarpAllocationGranularity (deviceProps : cudaDeviceProp) : Nat :=
  deviceProps.warpAllocationGranularity

/-- Modelled from the spec: `getSharedMemNeeded` (not under src/), the shared memory of a block,
"shared memory = kernelProfile.sharedMemPerBlock". -/
def getSharedMemNeeded (kernelProps : cudaFuncAttributes) (_deviceProps : cudaDeviceProp) : Nat :=
  kernelProps.sharedSizeBytes

/-- Modelled from the spec: `getHardwareLimit` (not under src/), the hardware ceiling
`min(device.maxThreadsPerSM / blockSize, architectural max blocks per SM)`. -/
def getHardwareLimit (deviceProps : cudaDeviceProp) (blockSize : Nat) : Nat :=
  min (deviceProps.maxThreadsPerMultiProcessor / blockSize) deviceProps.maxBlocksPerMultiProcessor

/-- Modelled from the spec: `getSharedMemLimit` (not under src/), the shared-memory ceiling
`device.sharedMemPerSM / kernelProfile.sharedMemPerBlock`; a kernel that uses no shared memory is
unconstrained, rendered as the largest `size_t` so that the minimum of the ceilings ignores it. -/
def getSharedMemLimit (deviceProps : cudaDeviceProp) (kernelProps : cudaFuncAttributes) : Nat :=
  if kernelProps.sharedSizeBytes = 0 then SIZE_MAX
  else deviceProps.sharedMemPerMultiprocessor / kernelProps.sharedSizeBytes

/-! ## The functions of `OccupancyCalculator.h` -/

/-- Source lines 42-48: registers of one block, allocated per warp.  The sum of line 44 is a
`size_t` sum and is reduced modulo `2 ^ 64`; a `blockSize` that is no `size_t` value is given no
warps.  The product of line 47 is taken exactly: it is the value of the source when
`numRegs * warpSize` fits its `int` and the result is below `2 ^ 64`. -/
def getNumRegistersPerBlock (deviceProps : cudaDeviceProp) (kernelProps : cudaFuncAttributes)
    (blockSize : Nat) : Nat :=
  let numerWarpsNeeded :=
    if blockSize < SIZE_MOD then
      (blockSize + (deviceProps.warpSize - 1)) % SIZE_MOD / deviceProps.warpSize
    else 0
  let numerWarpsNeeded := ceilTo numerWarpsNeeded (getWarpAllocationGranularity deviceProps)
  kernelProps.numRegs * deviceProps.warpSize * numerWarpsNeeded

/-- Modelled from the spec: `getRegisterLimit` (not under src/), the register ceiling
`device.registerFilePerSM / registersPerBlock(device, kernelProfile, blockSize)`. -/
def getRegisterLimit (deviceProps : cudaDeviceProp) (kernelProps : cudaFuncAttributes)
    (blockSize : Nat) : Nat :=
  deviceProps.regsPerMultiprocessor / getNumRegistersPerBlock deviceProps kernelProps blockSize

/-- Source lines 30-39: resident blocks of one multiprocessor. -/
def getMaxResidentBlocksPerSM (deviceProps : cudaDeviceProp) (kernelProps : cudaFuncAttributes)
    (blockSize : Nat) : Nat :=
  let hardwareLimit := getHardwareLimit deviceProps blockSize
  let sMemLimit := getSharedMemLimit deviceProps kernelProps
  let registerLimit := getRegisterLimit deviceProps kernelProps blockSize
  min3 hardwareLimit sMemLimit registerLimit

/-- Source lines 51-60: the usage of one block. -/
def getBlockUsageStats (deviceProps : cudaDeviceProp) (kernelProps : cudaFuncAttributes)
    (blockSize : Nat) : BlockUsage :=
  let numThreads := blockSize
  let blocksPerSM := getMaxResidentBlocksPerSM deviceProps kernelProps blockSize
  let numRegisters := getNumRegistersPerBlock deviceProps kernelProps blockSize
  let sharedMemory := getSharedMemNeeded kernelProps deviceProps
  { sharedMem := sharedMemory, numThreads := numThreads, numRegisters := numRegisters,
    numBlocksPerSM := blocksPerSM }

/-- Storing a `size_t` in an `int` (source line 79): the low 32 bits, read as two's complement. -/
def toInt32 (n : Nat) : Int :=
  if n % 2 ^ 32 < 2 ^ 31 then ((n % 2 ^ 32 : Nat) : Int) else ((n % 2 ^ 32 : Nat) : Int) - 2 ^ 32

/-- The value of `ceil((double) deficit / usagePerBlock)` (source line 82), computed on the
integers.  A 32-bit `deficit` is exact as a `double`.  For `usagePerBlock < 2 ^ 53` the divisor is
exact too, and the rounded quotient, off by less than `1 / usagePerBlock`, lies on the same side
of every integer as the exact one; for a larger `usagePerBlock` both quotients lie strictly
between `-1` and `1` with the sign of `deficit`.  Either way the two ceilings agree.  The
function is only reached with `usagePerBlock > 0` (line 76). -/
def ceilDiv (deficit : Int) (usagePerBlock : Nat) : Int :=
  -((-deficit) / (usagePerBlock : Int))

/-- Storing an integral value in a `size_t` (source lines 82 and 84): reduction modulo `2 ^ 64`.
For the unsigned subtraction of line 84 this is the language rule; for a negative `double`
(line 82) the language leaves the result open and this is the value an x86-64 build stores. -/
def toSizeT (z : Int) : Nat := (z % (SIZE_MOD : Int)).toNat

/-- Source lines 67-88: one shrink pass.  `params` is passed by reference in the source; here the
updated value is returned. -/
def reduceBlocksToFitOnGPU (usagePerBlock limitPerGPU : Nat) (params : LaunchParameters) :
    LaunchParameters :=
  let currentUsage := params.blocksPerGrid * usagePerBlock
  if currentUsage > limitPerGPU then
    let deficit : Int := toInt32 (currentUsage - limitPerGPU)
    let decrement : Nat := toSizeT (ceilDiv deficit usagePerBlock)
    let decreasedBlocks : Nat := toSizeT ((params.blocksPerGrid : Int) - (decrement : Int))
    { params with blocksPerGrid := decreasedBlocks }
  else params

/-- Source lines 96-99: the candidate grid size `blocksPhysical` of `limitUsage`. -/
def blocksPhysical (deviceProps : cudaDeviceProp) (kernelProps : cudaFuncAttributes)
    (lParams : LaunchParameters) (limits : KernelLimits) : Nat :=
  let usage := getBlockUsageStats deviceProps kernelProps lParams.threadsPerBlock
  let maximumResidentBLocks := usage.numBlocksPerSM * deviceProps.multiProcessorCount
  min3 lParams.blocksPerGrid maximumResidentBLocks limits.numBlocks

/-- Source lines 90-110: admission of a launch configuration under a Resource Limit Set. -/
def limitUsage (deviceProps : cudaDeviceProp) (kernelProps : cudaFuncAttributes)
    (lParams : LaunchParameters) (limits : KernelLimits) : LaunchParameters :=
  let usage := getBlockUsageStats deviceProps kernelProps lParams.threadsPerBlock
  let threadsPhysical := lParams.threadsPerBlock
  let result : LaunchParameters :=
    { threadsPerBlock := threadsPhysical,
      blocksPerGrid := blocksPhysical deviceProps kernelProps lParams limits }
  let result := reduceBlocksToFitOnGPU usage.sharedMem limits.sharedMem result
  let result := reduceBlocksToFitOnGPU usage.numThreads limits.numThreads result
  let result := reduceBlocksToFitOnGPU usage.numRegisters limits.numRegisters result
  result

/-- What the calculator reads from an `AbstractElasticKernel`: `getKernelProperties()`,
`getLaunchParams()` and `getMemoryConsumption()`. -/
structure AbstractElasticKernel where
  kernelProperties : cudaFuncAttributes
  launchParams : LaunchParameters
  memoryConsumption : Nat
  deriving DecidableEq, Repr

/-- Source lines 123-127: the block size `threadNum` that `getOccupancyForKernel` evaluates. -/
def threadNum (gpuConfiguration : cudaDeviceProp) (kernel : AbstractElasticKernel) : Nat :=
  min3 kernel.kernelProperties.maxThreadsPerBlock gpuConfiguration.maxThreadsPerMultiProcessor
    kernel.launchParams.threadsPerBlock

/-- Source lines 126-127: the threads `occupancy` that `getOccupancyForKernel` finds resident. -/
def occupiedThreads (gpuConfiguration : cudaDeviceProp) (kernel : AbstractElasticKernel) : Nat :=
  let maxBlocksPerSm := getMaxResidentBlocksPerSM gpuConfiguration kernel.kernelProperties
    (threadNum gpuConfiguration kernel)
  threadNum gpuConfiguration kernel * maxBlocksPerSm

/-- Source lines 120-131: compute occupancy of a kernel.  The device record, which the source
fetches with `getGPUProperties()`, is a parameter.  The value is the exact quotient of the two
integers; the `double` of the source is that quotient rounded, and rounding keeps it between the
representable bounds `0` and `1` whenever the exact quotient lies between them. -/
def getOccupancyForKernel (gpuConfiguration : cudaDeviceProp) (kernel : AbstractElasticKernel) :
    ℚ :=
  let max_occupancy := gpuConfiguration.maxThreadsPerMultiProcessor
  (occupiedThreads gpuConfiguration kernel : ℚ) / (max_occupancy : ℚ)

/-- Source lines 133-139: storage occupancy of a kernel, as an exact quotient.  The device record,
which the source fetches with `getGPUConfiguration()`, is a parameter.  Conversion to `double`
and the rounded division are monotone, so the `double` of the source is at most `1` when the
footprint is at most the device memory and above `1` when the exact quotient is well above it. -/
def getMemoryOccupancyForKernel (deviceProps : cudaDeviceProp) (kernel : AbstractElasticKernel) :
    ℚ :=
  let totalGPUmem : ℚ := (deviceProps.totalGlobalMem : ℚ)
  (kernel.memoryConsumption : ℚ) / totalGPUmem

/-- The unsigned `a -= b` on `size_t` (source line 152): exact when `b ≤ a`, and `2 ^ 64` more
when the subtraction borrows. -/
def wrapSub (a b : Nat) : Nat := if b ≤ a then a - b else a + SIZE_MOD - b

/-- The variables of the loop of `getOptimalBlockSize` (source lines 149-152). -/
structure SearchState where
  blocksize : Nat
  maxBLockSize : Nat
  highestOcc : Nat
  deriving DecidableEq, Repr

/-- Outcome of one pass through the loop: the function returns, or the loop goes on. -/
inductive LoopStep where
  | done (result : Nat)
  | next (s : SearchState)
  deriving DecidableEq, Repr

/-- Source lines 154-155: `occupancy = blocksize * maxBlocksPerSm`. -/
def blockOccupancy (gpuConfiguration : cudaDeviceProp) (kernelProps : cudaFuncAttributes)
    (blocksize : Nat) : Nat :=
  let maxBlocksPerSm := getMaxResidentBlocksPerSM gpuConfiguration kernelProps blocksize
  blocksize * maxBlocksPerSm

/-- Source lines 154-162: evaluate the candidate and keep it when it is strictly better. -/
def searchUpdate (gpuConfiguration : cudaDeviceProp) (kernelProps : cudaFuncAttributes)
    (s : SearchState) : SearchState :=
  let occupancy := blockOccupancy gpuConfiguration kernelProps s.blocksize
  if occupancy > s.highestOcc then
    { blocksize := s.blocksize, maxBLockSize := s.blocksize, highestOcc := occupancy }
  else s

/-- Source lines 152-167: the loop test, the body, the early exit and the decrement. -/
def searchStep (gpuConfiguration : cudaDeviceProp) (kernelProps : cudaFuncAttributes)
    (s : SearchState) : LoopStep :=
  if s.blocksize = 0 then .done s.maxBLockSize
  else
    let u := searchUpdate gpuConfiguration kernelProps s
    if u.highestOcc = gpuConfiguration.maxThreadsPerMultiProcessor then .done u.maxBLockSize
    else .next { blocksize := wrapSub s.blocksize gpuConfiguration.warpSize,
                 maxBLockSize := u.maxBLockSize, highestOcc := u.highestOcc }

/-- The loop of `getOptimalBlockSize`, run for at most `fuel` loop tests; `none` when the loop is
still running after them. -/
def searchLoop (gpuConfiguration : cudaDeviceProp) (kernelProps : cudaFuncAttributes) :
    Nat → SearchState → Option Nat
  | 0, _ => none
  | fuel + 1, s =>
    match searchStep gpuConfiguration kernelProps s with
    | .done r => some r
    | .next s' => searchLoop gpuConfiguration kernelProps fuel s'

/-- Source lines 145-150: the state in which the loop starts. -/
def searchStart (gpuConfiguration : cudaDeviceProp) (kernel : AbstractElasticKernel) :
    SearchState :=
  let largestThrNum := min2 kernel.kernelProperties.maxThreadsPerBlock
    gpuConfiguration.maxThreadsPerMultiProcessor
  { blocksize := largestThrNum, maxBLockSize := 0, highestOcc := 0 }

/-- Source lines 141-172: the occupancy-optimal block size.  The device record, which the source
fetches with `getGPUProperties()`, is a parameter. -/
def getOptimalBlockSize (gpuConfiguration : cudaDeviceProp) (kernel : AbstractElasticKernel)
    (fuel : Nat) : Option Nat :=
  searchLoop gpuConfiguration kernel.kernelProperties fuel (searchStart gpuConfiguration kernel)

/-- The block sizes on which the loop body runs within `fuel` loop tests, in the order of the
search. -/
def searchTested (gpuConfiguration : cudaDeviceProp) (kernelProps : cudaFuncAttributes) :
    Nat → SearchState → List Nat
  | 0, _ => []
  | fuel + 1, s =>
    match searchStep gpuConfiguration kernelProps s with
    | .done _ => if s.blocksize = 0 then [] else [s.blocksize]
    | .next s' => s.blocksize :: searchTested gpuConfiguration kernelProps fuel s'

/-- The candidate block sizes `getOptimalBlockSize` evaluates within `fuel` loop tests. -/
def testedBlockSizes (gpuConfiguration : cudaDeviceProp) (kernel : AbstractElasticKernel)
    (fuel : Nat) : List Nat :=
  searchTested gpuConfiguration kernel.kernelProperties fuel (searchStart gpuConfiguration kernel)

/-- The loop step of `getOptimalBlockSize` with the early exit of lines 164-166 removed. -/
def searchStepNoExit (gpuConfiguration : cudaDeviceProp) (kernelProps : cudaFuncAttributes)
    (s : SearchState) : LoopStep :=
  if s.blocksize = 0 then .done s.maxBLockSize
  else
    let u := searchUpdate gpuConfiguration kernelProps s
    .next { blocksize := wrapSub s.blocksize gpuConfiguration.warpSize,
            maxBLockSize := u.maxBLockSize, highestOcc := u.highestOcc }

/-- The loop of `getOptimalBlockSize` with the early exit removed. -/
def searchLoopNoExit (gpuConfiguration : cudaDeviceProp) (kernelProps : cudaFuncAttributes) :
    Nat → SearchState → Option Nat
  | 0, _ => none
  | fuel + 1, s =>
    match searchStepNoExit gpuConfiguration kernelProps s with
    | .done r => some r
    | .next s' => searchLoopNoExit gpuConfiguration kernelProps fuel s'

/-- The search of `getOptimalBlockSize` with the early exit removed. -/
def getOptimalBlockSizeNoExit (gpuConfiguration : cudaDeviceProp)
    (kernel : AbstractElasticKernel) (fuel : Nat) : Option Nat :=
  searchLoopNoExit gpuConfiguration kernel.kernelProperties fuel
    (searchStart gpuConfiguration kernel)

/-- Source lines 79-82: the decrement one shrink pass computes for a grid of `blocks` blocks
that exceeds the limit. -/
def shrinkDecrement (usagePerBlock limitPerGPU blocks : Nat) : Nat :=
  toSizeT (ceilDiv (toInt32 (blocks * usagePerBlock - limitPerGPU)) usagePerBlock)

/-- The three resources `limitUsage` caps with a shrink pass (source lines 105-107). -/
inductive Resource where
  | sharedMem
  | threads
  | registers
  deriving DecidableEq, Repr

/-- The usage of one block in a resource: the first argument of the shrink pass. -/
def Resource.usage (usage : BlockUsage) : Resource → Nat
  | .sharedMem => usage.sharedMem
  | .threads => usage.numThreads
  | .registers => usage.numRegisters

/-- The cap on a resource: the second argument of the shrink pass. -/
def Resource.cap (limits : KernelLimits) : Resource → Nat
  | .sharedMem => limits.sharedMem
  | .threads => limits.numThreads
  | .registers => limits.numRegisters

/-- The order in which `limitUsage` applies its shrink passes (source lines 105-107). -/
def codeOrder : List Resource := [.sharedMem, .threads, .registers]

/-- The shrink passes of `limitUsage` applied to a candidate in a given order of the
resources. -/
def shrinkInOrder (order : List Resource) (usage : BlockUsage) (limits : KernelLimits)
    (result : LaunchParameters) : LaunchParameters :=
  order.foldl (fun res r => reduceBlocksToFitOnGPU (r.usage usage) (r.cap limits) res) result

/-- Modelled from the spec: the re-tuning of the policies that "re-tune block size toward
optimum" (`KernelScheduler`, not under src/): the kernel with its threads-per-block replaced,
blocks-per-grid as registered. -/
def withBlockSize (kernel : AbstractElasticKernel) (threads : Nat) : AbstractElasticKernel :=
  { kernelProperties := kernel.kernelProperties,
    launchParams := { threadsPerBlock := threads,
                      blocksPerGrid := kernel.launchParams.blocksPerGrid },
    memoryConsumption := kernel.memoryConsumption }

/-- Modelled from the spec: the pool of FAIR_MAXIMUM_OCCUPANCY (`KernelScheduler`, not under
src/), "`optimalBlockSize` is computed first": every kernel re-tuned to the block size
`getOptimalBlockSize` returns for it; `none` when one of the searches is still running after
`fuel` loop tests. -/
def retunePool (gpuConfiguration : cudaDeviceProp) (fuel : Nat) :
    List AbstractElasticKernel → Option (List AbstractElasticKernel)
  | [] => some []
  | kernel :: rest =>
    match getOptimalBlockSize gpuConfiguration kernel fuel,
        retunePool gpuConfiguration fuel rest with
    | some r, some rest' => some (withBlockSize kernel r :: rest')
    | _, _ => none

/-- Modelled from the spec: the average compute occupancy of `getGPUOccupancyForPolicy`
(`KernelScheduler`, not under src/), which "averages compute-occupancy ... across all
kernels". -/
def averageComputeOccupancy (gpuConfiguration : cudaDeviceProp)
    (pool : List AbstractElasticKernel) : ℚ :=
  (pool.map (getOccupancyForKernel gpuConfiguration)).sum / (pool.length : ℚ)

/-! ## Concrete inputs -/

/-- The device of the specification's scenarios: 14 multiprocessors, 2048 threads, 49152 bytes of
shared memory and 65536 registers per multiprocessor, warps of 32 threads. -/
def scenarioDevice : cudaDeviceProp :=
  { multiProcessorCount := 14, maxThreadsPerMultiProcessor := 2048, warpSize := 32,
    totalGlobalMem := 3221225472, sharedMemPerMultiprocessor := 49152,
    regsPerMultiprocessor := 65536, warpAllocationGranularity := 2,
    maxBlocksPerMultiProcessor := 8 }

/-- The kernel of the specification's scenarios: 32 registers per thread, no shared memory. -/
def scenarioKernel : cudaFuncAttributes :=
  { numRegs := 32, sharedSizeBytes := 0, maxThreadsPerBlock := 1024 }

/-- A device as `scenarioDevice` with 8 GiB of shared memory per multiprocessor. -/
def bigSharedDevice : cudaDeviceProp :=
  { scenarioDevice with sharedMemPerMultiprocessor := 8 * 2 ^ 30 }

/-- A kernel whose blocks take `gib` GiB of shared memory each. -/
def bigSharedKernel (gib : Nat) : cudaFuncAttributes :=
  { numRegs := 32, sharedSizeBytes := gib * 2 ^ 30, maxThreadsPerBlock := 1024 }

/-- A Resource Limit Set that grants `blocks` blocks and 1 GiB of shared memory, with thread and
register caps far above any use. -/
def oneGiBLimits (blocks : Nat) : KernelLimits :=
  { numBlocks := blocks, sharedMem := 2 ^ 30, numThreads := 2 ^ 20, numRegisters := 2 ^ 30 }

/-- An elastic kernel of the scenario kind launched with `threads` threads per block and
`blocks` blocks, with a device footprint of `footprint` bytes. -/
def scenarioElasticKernel (threads blocks footprint : Nat) : AbstractElasticKernel :=
  { kernelProperties := scenarioKernel, launchParams := ⟨threads, blocks⟩,
    memoryConsumption := footprint }

/-- A kernel compiled for at most `maxThreads` threads per block, otherwise as the scenario
kernel. -/
def boundedKernel (maxThreads : Nat) : AbstractElasticKernel :=
  { kernelProperties := { numRegs := 32, sharedSizeBytes := 0, maxThreadsPerBlock := maxThreads },
    launchParams := ⟨maxThreads, 1⟩, memoryConsumption := 4096 }

/-- A kernel compiled for at most 1000 threads per block whose blocks take 65536 bytes of shared
memory, more than a multiprocessor of the scenario device has. -/
def hungryKernel : AbstractElasticKernel :=
  { kernelProperties := { numRegs := 32, sharedSizeBytes := 65536, maxThreadsPerBlock := 1000 },
    launchParams := ⟨1000, 1⟩, memoryConsumption := 4096 }

/-- A device as `scenarioDevice` with 16 GiB of shared memory per multiprocessor. -/
def hugeSharedDevice : cudaDeviceProp :=
  { multiProcessorCount := 14, maxThreadsPerMultiProcessor := 2048, warpSize := 32,
    totalGlobalMem := 3221225472, sharedMemPerMultiprocessor := 16 * 2 ^ 30,
    regsPerMultiprocessor := 65536, warpAllocationGranularity := 2,
    maxBlocksPerMultiProcessor := 8 }

/-- A Resource Limit Set that grants `blocks` blocks and `sharedMem` bytes of shared memory,
with thread and register caps far above any use. -/
def sharedLimits (blocks sharedMem : Nat) : KernelLimits :=
  { numBlocks := blocks, sharedMem := sharedMem, numThreads := 2 ^ 20, numRegisters := 2 ^ 30 }

/-- A Resource Limit Set that grants 3 blocks, 7 GiB of shared memory and 512 threads. -/
def twoCapLimits : KernelLimits :=
  { numBlocks := 3, sharedMem := 7 * 2 ^ 30, numThreads := 512, numRegisters := 2 ^ 30 }

/-- A kernel with 16 registers per thread and 16384 bytes of shared memory per block, compiled
for at most 704 threads per block and registered with 682 threads per block. -/
def offWarpKernel : AbstractElasticKernel :=
  { kernelProperties := { numRegs := 16, sharedSizeBytes := 16384, maxThreadsPerBlock := 704 },
    launchParams := ⟨682, 4⟩, memoryConsumption := 4096 }

/-! ## Arithmetic of the helpers -/

theorem le_ceilTo (x g : Nat) (hg : 0 < g) : x ≤ ceilTo x g := by
  unfold ceilTo
  have h := Nat.lt_div_mul_add (a := x + (g - 1)) hg
  omega

theorem ceilTo_lt (x g : Nat) (hg : 0 < g) : ceilTo x g < x + g := by
  unfold ceilTo
  have h := Nat.div_mul_le_self (x + (g - 1)) g
  omega

theorem dvd_ceilTo (x g : Nat) : g ∣ ceilTo x g := by
  unfold ceilTo
  exact Dvd.intro_left _ rfl

/-- The quotient of source line 44 is the ceiling of `blockSize / warpSize`. -/
theorem warps_eq_ceil (b w : Nat) (hw : 0 < w) : (b + (w - 1)) / w = ⌈(b : ℚ) / (w : ℚ)⌉₊ := by
  have hwq : (0 : ℚ) < (w : ℚ) := by exact_mod_cast hw
  apply le_antisymm
  · have h1 : (b : ℚ) / (w : ℚ) ≤ ((⌈(b : ℚ) / (w : ℚ)⌉₊ : Nat) : ℚ) := Nat.le_ceil _
    rw [div_le_iff₀ hwq] at h1
    have h2 : b ≤ ⌈(b : ℚ) / (w : ℚ)⌉₊ * w := by exact_mod_cast h1
    rw [Nat.div_le_iff_le_mul_add_pred hw]
    nlinarith [h2]
  · rw [Nat.ceil_le, div_le_iff₀ hwq]
    have h := Nat.lt_div_mul_add (a := b + (w - 1)) hw
    have h2 : b ≤ (b + (w - 1)) / w * w := by omega
    exact_mod_cast h2

theorem toInt32_of_lt (n : Nat) (h : n < 2 ^ 31) : toInt32 n = (n : Int) := by
  unfold toInt32
  have h1 : n % 2 ^ 32 = n := Nat.mod_eq_of_lt (by omega)
  rw [h1, if_pos h]

theorem toSizeT_of_lt (n : Nat) (h : n < SIZE_MOD) : toSizeT (n : Int) = n := by
  unfold toSizeT
  rw [Int.emod_eq_of_lt (by omega) (by exact_mod_cast h)]
  simp

/-- The ceiling of line 82 on an untruncated deficit: the blocks above `L / u`. -/
theorem ceilDiv_deficit (b u L : Nat) (hu : 0 < u) (h : L < b * u) :
    ceilDiv ((b * u - L : Nat) : Int) u = ((b - L / u : Nat) : Int) := by
  have hq : L / u < b := Nat.div_lt_of_lt_mul (by rwa [Nat.mul_comm] at h)
  have hL := Nat.div_add_mod L u
  have hr := Nat.mod_lt L hu
  have hLi : (L : Int) = (u : Int) * ((L / u : Nat) : Int) + ((L % u : Nat) : Int) := by
    exact_mod_cast hL.symm
  have e : -(((b * u - L : Nat)) : Int)
      = ((L % u : Nat) : Int) + (-(((b - L / u : Nat) : Int))) * (u : Int) := by
    rw [Nat.cast_sub h.le, Nat.cast_sub hq.le, Nat.cast_mul]
    linear_combination hLi
  unfold ceilDiv
  rw [e, Int.add_mul_ediv_right _ _ (by omega : (u : Int) ≠ 0),
    Int.ediv_eq_zero_of_lt (by omega) (by exact_mod_cast hr)]
  simp

/-- A pass whose usage is within the limit leaves the launch parameters as they are. -/
theorem reduceBlocksToFitOnGPU_of_le (u L : Nat) (p : LaunchParameters)
    (h : p.blocksPerGrid * u ≤ L) : reduceBlocksToFitOnGPU u L p = p := by
  unfold reduceBlocksToFitOnGPU
  simp only [gt_iff_lt]
  rw [if_neg (Nat.not_lt.mpr h)]

/-- A pass whose deficit fits the `int` of line 79 leaves `L / u` blocks. -/
theorem reduceBlocksToFitOnGPU_of_gt (u L : Nat) (p : LaunchParameters)
    (h : L < p.blocksPerGrid * u) (hd : p.blocksPerGrid * u - L < 2 ^ 31)
    (hb : p.blocksPerGrid < SIZE_MOD) :
    reduceBlocksToFitOnGPU u L p = { p with blocksPerGrid := L / u } := by
  have hu : 0 < u := by
    rcases Nat.eq_zero_or_pos u with h0 | h0
    · rw [h0] at h; omega
    · exact h0
  have hq : L / u < p.blocksPerGrid := Nat.div_lt_of_lt_mul (by rwa [Nat.mul_comm] at h)
  unfold reduceBlocksToFitOnGPU
  simp only [gt_iff_lt]
  rw [if_pos h, toInt32_of_lt _ hd, ceilDiv_deficit _ _ _ hu h,
    toSizeT_of_lt _ (lt_of_le_of_lt (Nat.sub_le _ _) hb)]
  have e : (p.blocksPerGrid : Int) - ((p.blocksPerGrid - L / u : Nat) : Int)
      = ((L / u : Nat) : Int) := by
    rw [Nat.cast_sub hq.le]; ring
  rw [e, toSizeT_of_lt _ (lt_trans hq hb)]

/-- One pass whose deficit fits the `int` of line 79: the grid does not grow and meets the
limit. -/
theorem reduceBlocksToFitOnGPU_fits (u L : Nat) (p : LaunchParameters)
    (hd : p.blocksPerGrid * u - L < 2 ^ 31) (hb : p.blocksPerGrid < SIZE_MOD) :
    (reduceBlocksToFitOnGPU u L p).blocksPerGrid ≤ p.blocksPerGrid ∧
    (reduceBlocksToFitOnGPU u L p).blocksPerGrid * u ≤ L := by
  rcases Nat.lt_or_ge L (p.blocksPerGrid * u) with h | h
  · rw [reduceBlocksToFitOnGPU_of_gt u L p h hd hb]
    have hq : L / u < p.blocksPerGrid := Nat.div_lt_of_lt_mul (by rwa [Nat.mul_comm] at h)
    exact ⟨hq.le, Nat.div_mul_le_self L u⟩
  · rw [reduceBlocksToFitOnGPU_of_le u L p h]
    exact ⟨le_refl _, h⟩

/-- No pass touches the threads per block. -/
theorem reduceBlocksToFitOnGPU_threads (u L : Nat) (p : LaunchParameters) :
    (reduceBlocksToFitOnGPU u L p).threadsPerBlock = p.threadsPerBlock := by
  unfold reduceBlocksToFitOnGPU
  simp only [gt_iff_lt]
  split <;> rfl

theorem ceilTo_eight (g : Nat) (hg : g ∣ 8) : ceilTo 8 g = 8 := by
  have hle : g ≤ 8 := Nat.le_of_dvd (by decide) hg
  have hpos : 0 < g := Nat.pos_of_dvd_of_pos hg (by decide)
  unfold ceilTo
  interval_cases g <;> first | rfl | (exfalso; revert hg; decide)

theorem ceilTo_zero (g : Nat) : ceilTo 0 g = 0 := by
  unfold ceilTo
  rcases Nat.eq_zero_or_pos g with hg | hg
  · rw [hg]
  · rw [Nat.zero_add, Nat.div_eq_of_lt (by omega), Nat.zero_mul]

/-- When the sum of source line 44 stays below `2 ^ 64`, the registers of a block are those of
the exact warp count. -/
theorem getNumRegistersPerBlock_of_fits (d : cudaDeviceProp) (k : cudaFuncAttributes) (b : Nat)
    (h : b + (d.warpSize - 1) < SIZE_MOD) :
    getNumRegistersPerBlock d k b
      = k.numRegs * d.warpSize
          * ceilTo ((b + (d.warpSize - 1)) / d.warpSize) d.warpAllocationGranularity := by
  have hb : b < SIZE_MOD := lt_of_le_of_lt (Nat.le_add_right _ _) h
  simp only [getNumRegistersPerBlock, getWarpAllocationGranularity]
  rw [if_pos hb, Nat.mod_eq_of_lt h]

/-- When the sum of source line 44 reaches `2 ^ 64`, what the wrap leaves is less than one warp:
the block is given no warp and no register. -/
theorem getNumRegistersPerBlock_of_wrap (d : cudaDeviceProp) (k : cudaFuncAttributes) (b : Nat)
    (h : SIZE_MOD ≤ b + (d.warpSize - 1)) : getNumRegistersPerBlock d k b = 0 := by
  have hq : (if b < SIZE_MOD then (b + (d.warpSize - 1)) % SIZE_MOD / d.warpSize else 0) = 0 := by
    split
    · rename_i hb
      rcases Nat.eq_zero_or_pos d.warpSize with hw | hw
      · rw [hw, Nat.div_zero]
      · apply Nat.div_eq_of_lt
        unfold SIZE_MOD at h hb ⊢
        omega
    · rfl
  simp only [getNumRegistersPerBlock, getWarpAllocationGranularity]
  rw [hq, ceilTo_zero, Nat.mul_zero]

/-- Registers of a 256-thread block of the scenario: `32 × 32 × 8`. -/
theorem scenario_registers (d : cudaDeviceProp) (k : cudaFuncAttributes)
    (hw : d.warpSize = 32) (hg : d.warpAllocationGranularity ∣ 8) (hr : k.numRegs = 32) :
    getNumRegistersPerBlock d k 256 = 8192 := by
  rw [getNumRegistersPerBlock_of_fits d k 256 (by rw [hw]; decide), hw, hr,
    show (256 + (32 - 1)) / 32 = 8 from rfl, ceilTo_eight _ hg]

/-- Resident blocks of a 256-thread block of the scenario. -/
theorem scenario_resident (d : cudaDeviceProp) (k : cudaFuncAttributes)
    (ht : d.maxThreadsPerMultiProcessor = 2048) (hw : d.warpSize = 32)
    (hf : d.regsPerMultiprocessor = 65536) (hg : d.warpAllocationGranularity ∣ 8)
    (ha : 8 ≤ d.maxBlocksPerMultiProcessor) (hr : k.numRegs = 32) (hs : k.sharedSizeBytes = 0) :
    getMaxResidentBlocksPerSM d k 256 = 8 := by
  simp only [getMaxResidentBlocksPerSM, getHardwareLimit, getSharedMemLimit, getRegisterLimit,
    scenario_registers d k hw hg hr, ht, hf, hs, min3, SIZE_MAX]
  rw [Nat.min_eq_left ha, if_pos trivial]
  decide

/-! ## Register accounting and resident blocks -/

/-- C7, where the claim fails: on the scenario device, with warps of 32 threads and a granularity
of 2, the sum of source line 44 wraps at block size `2 ^ 64 - 24`; the function returns 0, which
is no `registersPerThread × warpSize × W` with `W` at least the ceiling of
`blockSize / warpSize`. -/
theorem getNumRegistersPerBlock_wraps :
    0 < scenarioDevice.warpSize ∧ 0 < scenarioDevice.warpAllocationGranularity ∧
    getNumRegistersPerBlock scenarioDevice scenarioKernel (2 ^ 64 - 24) = 0 ∧
    ¬ ∃ W : Nat, getNumRegistersPerBlock scenarioDevice scenarioKernel (2 ^ 64 - 24)
        = scenarioKernel.numRegs * scenarioDevice.warpSize * W ∧
      scenarioDevice.warpAllocationGranularity ∣ W ∧
      ⌈((2 ^ 64 - 24 : Nat) : ℚ) / (scenarioDevice.warpSize : ℚ)⌉₊ ≤ W ∧
      W < ⌈((2 ^ 64 - 24 : Nat) : ℚ) / (scenarioDevice.warpSize : ℚ)⌉₊
        + scenarioDevice.warpAllocationGranularity := by
  have h0 : getNumRegistersPerBlock scenarioDevice scenarioKernel (2 ^ 64 - 24) = 0 := by decide
  refine ⟨by decide, by decide, h0, ?_⟩
  rintro ⟨W, h1, _, h3, _⟩
  rw [← warps_eq_ceil (2 ^ 64 - 24) scenarioDevice.warpSize (by decide)] at h3
  have h4 : (2 ^ 64 - 24 + (scenarioDevice.warpSize - 1)) / scenarioDevice.warpSize = 2 ^ 59 := by
    decide
  rw [h4] at h3
  rw [h0] at h1
  have h5 : scenarioKernel.numRegs * scenarioDevice.warpSize = 1024 := by decide
  rw [h5] at h1
  omega

/-- C7: for a positive warp size, a positive warp-allocation granularity and a block size for
which the arithmetic of the function stays in its machine types (the sum of line 44 is below
`2 ^ 64`, `numRegs * warpSize` fits the `int` of line 47 and the product is below `2 ^ 64`),
`getNumRegistersPerBlock` returns `registersPerThread × warpSize × W`, where `W` is the ceiling of
`blockSize / warpSize` rounded up to the next multiple of the granularity: `W` is a multiple of the
granularity, it is at least that ceiling, and it exceeds it by less than one granule. -/
theorem getNumRegistersPerBlock_eq (d : cudaDeviceProp) (k : cudaFuncAttributes) (blockSize : Nat)
    (hw : 0 < d.warpSize) (hg : 0 < d.warpAllocationGranularity)
    (hfit : blockSize + (d.warpSize - 1) < SIZE_MOD)
    (_hint : k.numRegs * d.warpSize < 2 ^ 31)
    (_hres : k.numRegs * d.warpSize
      * ceilTo ((blockSize + (d.warpSize - 1)) / d.warpSize) d.warpAllocationGranularity
        < SIZE_MOD) :
    ∃ W : Nat, getNumRegistersPerBlock d k blockSize = k.numRegs * d.warpSize * W ∧
      d.warpAllocationGranularity ∣ W ∧
      ⌈(blockSize : ℚ) / (d.warpSize : ℚ)⌉₊ ≤ W ∧
      W < ⌈(blockSize : ℚ) / (d.warpSize : ℚ)⌉₊ + d.warpAllocationGranularity := by
  refine ⟨ceilTo ((blockSize + (d.warpSize - 1)) / d.warpSize) d.warpAllocationGranularity,
    getNumRegistersPerBlock_of_fits d k blockSize hfit, dvd_ceilTo _ _, ?_, ?_⟩
  · rw [← warps_eq_ceil blockSize d.warpSize hw]
    exact le_ceilTo _ _ hg
  · rw [← warps_eq_ceil blockSize d.warpSize hw]
    exact ceilTo_lt _ _ hg

theorem getNumRegistersPerBlock_eq_witness :
    0 < scenarioDevice.warpSize ∧ 0 < scenarioDevice.warpAllocationGranularity ∧
    200 + (scenarioDevice.warpSize - 1) < SIZE_MOD ∧
    scenarioKernel.numRegs * scenarioDevice.warpSize < 2 ^ 31 ∧
    ∃ W : Nat, getNumRegistersPerBlock scenarioDevice scenarioKernel 200
        = scenarioKernel.numRegs * scenarioDevice.warpSize * W ∧
      scenarioDevice.warpAllocationGranularity ∣ W ∧
      ⌈((200 : Nat) : ℚ) / (scenarioDevice.warpSize : ℚ)⌉₊ ≤ W ∧
      W < ⌈((200 : Nat) : ℚ) / (scenarioDevice.warpSize : ℚ)⌉₊
        + scenarioDevice.warpAllocationGranularity :=
  ⟨by decide, by decide, by decide, by decide,
    getNumRegistersPerBlock_eq scenarioDevice scenarioKernel 200 (by decide) (by decide)
      (by decide) (by decide) (by decide)⟩

/-- The warps of source line 44 cover the block. -/
theorem le_warps_mul (b w : Nat) (hw : 0 < w) : b ≤ (b + (w - 1)) / w * w := by
  have h := Nat.lt_div_mul_add (a := b + (w - 1)) hw
  omega

/-- When the block is not a whole number of warps, the warps of line 44 hold more threads. -/
theorem lt_warps_mul (b w : Nat) (hw : 0 < w) (hnd : ¬ w ∣ b) : b < (b + (w - 1)) / w * w := by
  rcases Nat.lt_or_ge b ((b + (w - 1)) / w * w) with h | h
  · exact h
  · exact absurd (Dvd.intro_left _ (le_antisymm h (le_warps_mul b w hw))) hnd

/-- C8, where the claim fails: on the scenario device, with warps of 32 threads and a granularity
of 2, the block size `2 ^ 64 - 24`, which is no multiple of 32, is given no register by a kernel
with 32 registers per thread: the sum of source line 44 wraps. -/
theorem getNumRegistersPerBlock_under_counts :
    0 < scenarioDevice.warpSize ∧ 0 < scenarioDevice.warpAllocationGranularity ∧
    0 < scenarioKernel.numRegs ∧ ¬ scenarioDevice.warpSize ∣ 2 ^ 64 - 24 ∧
    getNumRegistersPerBlock scenarioDevice scenarioKernel (2 ^ 64 - 24) = 0 ∧
    ¬ scenarioKernel.numRegs * (2 ^ 64 - 24)
        ≤ getNumRegistersPerBlock scenarioDevice scenarioKernel (2 ^ 64 - 24) := by
  decide

/-- C8: warp-granular register accounting never under-counts, as long as the arithmetic of the
function stays in its machine types (the sum of line 44 is below `2 ^ 64`, `numRegs * warpSize`
fits the `int` of line 47 and the product is below `2 ^ 64`).  For a positive warp size and a
positive granularity `getNumRegistersPerBlock` is then at least `registersPerThread × blockSize`,
and strictly more when `blockSize` is not a multiple of the warp size and the kernel uses
registers. -/
theorem getNumRegistersPerBlock_ge (d : cudaDeviceProp) (k : cudaFuncAttributes) (blockSize : Nat)
    (hw : 0 < d.warpSize) (hg : 0 < d.warpAllocationGranularity)
    (hfit : blockSize + (d.warpSize - 1) < SIZE_MOD)
    (_hint : k.numRegs * d.warpSize < 2 ^ 31)
    (_hres : k.numRegs * d.warpSize
      * ceilTo ((blockSize + (d.warpSize - 1)) / d.warpSize) d.warpAllocationGranularity
        < SIZE_MOD) :
    k.numRegs * blockSize ≤ getNumRegistersPerBlock d k blockSize ∧
    (¬ d.warpSize ∣ blockSize → 0 < k.numRegs →
      k.numRegs * blockSize < getNumRegistersPerBlock d k blockSize) := by
  have hW := le_ceilTo ((blockSize + (d.warpSize - 1)) / d.warpSize)
    d.warpAllocationGranularity hg
  have hge : (blockSize + (d.warpSize - 1)) / d.warpSize * d.warpSize
      ≤ d.warpSize * ceilTo ((blockSize + (d.warpSize - 1)) / d.warpSize)
          d.warpAllocationGranularity := by
    rw [Nat.mul_comm]
    exact Nat.mul_le_mul_left _ hW
  rw [getNumRegistersPerBlock_of_fits d k blockSize hfit, Nat.mul_assoc]
  constructor
  · exact Nat.mul_le_mul_left _ (le_trans (le_warps_mul blockSize d.warpSize hw) hge)
  · intro hnd hr
    exact Nat.mul_lt_mul_of_pos_left
      (lt_of_lt_of_le (lt_warps_mul blockSize d.warpSize hw hnd) hge) hr

theorem getNumRegistersPerBlock_ge_witness :
    0 < scenarioDevice.warpSize ∧ 0 < scenarioDevice.warpAllocationGranularity ∧
    200 + (scenarioDevice.warpSize - 1) < SIZE_MOD ∧
    scenarioKernel.numRegs * scenarioDevice.warpSize < 2 ^ 31 ∧
    ¬ scenarioDevice.warpSize ∣ 200 ∧ 0 < scenarioKernel.numRegs ∧
    scenarioKernel.numRegs * 200 ≤ getNumRegistersPerBlock scenarioDevice scenarioKernel 200 ∧
    scenarioKernel.numRegs * 200 < getNumRegistersPerBlock scenarioDevice scenarioKernel 200 :=
  ⟨by decide, by decide, by decide, by decide, by decide, by decide,
    (getNumRegistersPerBlock_ge scenarioDevice scenarioKernel 200 (by decide) (by decide)
      (by decide) (by decide) (by decide)).1,
    (getNumRegistersPerBlock_ge scenarioDevice scenarioKernel 200 (by decide) (by decide)
      (by decide) (by decide) (by decide)).2 (by decide) (by decide)⟩

/-- C9: the occupancy scenario.  On a device with 2048 threads, 49152 bytes of shared memory and
65536 registers per multiprocessor, warps of 32 threads, a warp-allocation granularity dividing 8
and an architectural limit of at least 8 blocks, a kernel with 32 registers per thread and no
shared memory has, at block size 256, `getNumRegistersPerBlock = 8192` and
`getMaxResidentBlocksPerSM = 8`. -/
theorem scenario_occupancy (d : cudaDeviceProp) (k : cudaFuncAttributes)
    (ht : d.maxThreadsPerMultiProcessor = 2048) (hw : d.warpSize = 32)
    (_hm : d.sharedMemPerMultiprocessor = 49152) (hf : d.regsPerMultiprocessor = 65536)
    (hg : d.warpAllocationGranularity ∣ 8) (ha : 8 ≤ d.maxBlocksPerMultiProcessor)
    (hr : k.numRegs = 32) (hs : k.sharedSizeBytes = 0) :
    getNumRegistersPerBlock d k 256 = 8192 ∧ getMaxResidentBlocksPerSM d k 256 = 8 :=
  ⟨scenario_registers d k hw hg hr, scenario_resident d k ht hw hf hg ha hr hs⟩

theorem scenario_occupancy_witness :
    getNumRegistersPerBlock scenarioDevice scenarioKernel 256 = 8192 ∧
    getMaxResidentBlocksPerSM scenarioDevice scenarioKernel 256 = 8 :=
  scenario_occupancy scenarioDevice scenarioKernel rfl rfl rfl rfl (by decide) (by decide) rfl rfl

/-- C10: `getMaxResidentBlocksPerSM` is at most each of the hardware ceiling, the shared-memory
ceiling and the register ceiling, and it equals one of them. -/
theorem getMaxResidentBlocksPerSM_min (d : cudaDeviceProp) (k : cudaFuncAttributes)
    (blockSize : Nat) :
    getMaxResidentBlocksPerSM d k blockSize ≤ getHardwareLimit d blockSize ∧
    getMaxResidentBlocksPerSM d k blockSize ≤ getSharedMemLimit d k ∧
    getMaxResidentBlocksPerSM d k blockSize ≤ getRegisterLimit d k blockSize ∧
    (getMaxResidentBlocksPerSM d k blockSize = getHardwareLimit d blockSize ∨
      getMaxResidentBlocksPerSM d k blockSize = getSharedMemLimit d k ∨
      getMaxResidentBlocksPerSM d k blockSize = getRegisterLimit d k blockSize) := by
  simp only [getMaxResidentBlocksPerSM, min3]
  omega

/-! ## Admission -/

/-- C3: `limitUsage` returns the threads per block it was given. -/
theorem limitUsage_threadsPerBlock (d : cudaDeviceProp) (k : cudaFuncAttributes)
    (lParams : LaunchParameters) (limits : KernelLimits) :
    (limitUsage d k lParams limits).threadsPerBlock = lParams.threadsPerBlock := by
  simp only [limitUsage, reduceBlocksToFitOnGPU_threads]

/-- C6: the admission scenario.  On the scenario device (14 multiprocessors) and kernel, at 256
threads per block, with at least 112 blocks requested and granted, a thread cap of 4096 and a
register cap that the final grid meets, `limitUsage` starts from 112 blocks and returns 16. -/
theorem limitUsage_scenario (d : cudaDeviceProp) (k : cudaFuncAttributes)
    (lParams : LaunchParameters) (limits : KernelLimits)
    (hc : d.multiProcessorCount = 14) (ht : d.maxThreadsPerMultiProcessor = 2048)
    (hw : d.warpSize = 32) (hf : d.regsPerMultiprocessor = 65536)
    (hg : d.warpAllocationGranularity ∣ 8) (ha : 8 ≤ d.maxBlocksPerMultiProcessor)
    (hr : k.numRegs = 32) (hs : k.sharedSizeBytes = 0)
    (hp : lParams.threadsPerBlock = 256) (hb : 112 ≤ lParams.blocksPerGrid)
    (hl : 112 ≤ limits.numBlocks) (hn : limits.numThreads = 4096)
    (hq : 16 * 8192 ≤ limits.numRegisters) :
    blocksPhysical d k lParams limits = 112 ∧
    (limitUsage d k lParams limits).blocksPerGrid = 16 := by
  have hcand : blocksPhysical d k lParams limits = 112 := by
    simp only [blocksPhysical, getBlockUsageStats, hp,
      scenario_resident d k ht hw hf hg ha hr hs, hc, min3]
    omega
  refine ⟨hcand, ?_⟩
  simp only [limitUsage, hcand, getBlockUsageStats, hp, getSharedMemNeeded, hs,
    scenario_registers d k hw hg hr, hn]
  rw [reduceBlocksToFitOnGPU_of_le 0 _ _ (by simp),
    reduceBlocksToFitOnGPU_of_gt 256 4096 _ (by decide) (by decide) (by decide),
    reduceBlocksToFitOnGPU_of_le 8192 _ _ (by simpa using hq)]

theorem limitUsage_scenario_witness :
    blocksPhysical scenarioDevice scenarioKernel ⟨256, 200⟩ ⟨112, 49152, 4096, 917504⟩ = 112 ∧
    (limitUsage scenarioDevice scenarioKernel ⟨256, 200⟩ ⟨112, 49152, 4096, 917504⟩).blocksPerGrid
      = 16 :=
  limitUsage_scenario scenarioDevice scenarioKernel ⟨256, 200⟩ ⟨112, 49152, 4096, 917504⟩
    rfl rfl rfl rfl (by decide) (by decide) rfl rfl rfl (by decide) (by decide) rfl (by decide)

/-- Admission when no deficit outgrows the `int` of line 79 (the candidate grid exceeds each cap
by less than `2 ^ 31` units): the returned grid is at most the candidate and meets the three
caps. -/
theorem limitUsage_fits (d : cudaDeviceProp) (k : cudaFuncAttributes)
    (lParams : LaunchParameters) (limits : KernelLimits)
    (hb : blocksPhysical d k lParams limits < SIZE_MOD)
    (h1 : blocksPhysical d k lParams limits
        * (getBlockUsageStats d k lParams.threadsPerBlock).sharedMem - limits.sharedMem < 2 ^ 31)
    (h2 : blocksPhysical d k lParams limits
        * (getBlockUsageStats d k lParams.threadsPerBlock).numThreads - limits.numThreads
          < 2 ^ 31)
    (h3 : blocksPhysical d k lParams limits
        * (getBlockUsageStats d k lParams.threadsPerBlock).numRegisters - limits.numRegisters
          < 2 ^ 31) :
    (limitUsage d k lParams limits).blocksPerGrid ≤ blocksPhysical d k lParams limits ∧
    (limitUsage d k lParams limits).blocksPerGrid
      * (getBlockUsageStats d k lParams.threadsPerBlock).sharedMem ≤ limits.sharedMem ∧
    (limitUsage d k lParams limits).blocksPerGrid
      * (getBlockUsageStats d k lParams.threadsPerBlock).numThreads ≤ limits.numThreads ∧
    (limitUsage d k lParams limits).blocksPerGrid
      * (getBlockUsageStats d k lParams.threadsPerBlock).numRegisters
        ≤ limits.numRegisters := by
  generalize hu : getBlockUsageStats d k lParams.threadsPerBlock = usage at h1 h2 h3 ⊢
  generalize hc : blocksPhysical d k lParams limits = c at hb h1 h2 h3 ⊢
  have e : limitUsage d k lParams limits
      = reduceBlocksToFitOnGPU usage.numRegisters limits.numRegisters
          (reduceBlocksToFitOnGPU usage.numThreads limits.numThreads
            (reduceBlocksToFitOnGPU usage.sharedMem limits.sharedMem
              { threadsPerBlock := lParams.threadsPerBlock, blocksPerGrid := c })) := by
    simp only [limitUsage, hu, hc]
  rw [e]
  generalize hp0 : ({ threadsPerBlock := lParams.threadsPerBlock, blocksPerGrid := c } :
    LaunchParameters) = p0
  have hp0b : p0.blocksPerGrid = c := by rw [← hp0]
  obtain ⟨a1, b1⟩ := reduceBlocksToFitOnGPU_fits usage.sharedMem limits.sharedMem p0
    (by rw [hp0b]; exact h1) (by rw [hp0b]; exact hb)
  generalize reduceBlocksToFitOnGPU usage.sharedMem limits.sharedMem p0 = p1 at a1 b1 ⊢
  have m2 : p1.blocksPerGrid * usage.numThreads ≤ c * usage.numThreads :=
    Nat.mul_le_mul_right _ (hp0b ▸ a1)
  obtain ⟨a2, b2⟩ := reduceBlocksToFitOnGPU_fits usage.numThreads limits.numThreads p1
    (by omega) (by omega)
  generalize reduceBlocksToFitOnGPU usage.numThreads limits.numThreads p1 = p2 at a2 b2 ⊢
  have m3 : p2.blocksPerGrid * usage.numRegisters ≤ c * usage.numRegisters :=
    Nat.mul_le_mul_right _ (by omega)
  obtain ⟨a3, b3⟩ := reduceBlocksToFitOnGPU_fits usage.numRegisters limits.numRegisters p2
    (by omega) (by omega)
  generalize reduceBlocksToFitOnGPU usage.numRegisters limits.numRegisters p2 = p3 at a3 b3 ⊢
  have n1 : p3.blocksPerGrid * usage.sharedMem ≤ p1.blocksPerGrid * usage.sharedMem :=
    Nat.mul_le_mul_right _ (by omega)
  have n2 : p3.blocksPerGrid * usage.numThreads ≤ p2.blocksPerGrid * usage.numThreads :=
    Nat.mul_le_mul_right _ a3
  refine ⟨by omega, by omega, by omega, b3⟩

/-- C1 (failing input): two blocks of 3 GiB of shared memory under a cap of 1 GiB.  The deficit of
5 GiB does not fit the `int` of line 79, which keeps 1 GiB of it; one block is trimmed instead of
two, and the returned grid of one block uses 3 GiB. -/
theorem limitUsage_sharedMem_cap_exceeded :
    0 < (getBlockUsageStats bigSharedDevice (bigSharedKernel 3) 256).sharedMem ∧
    0 < (getBlockUsageStats bigSharedDevice (bigSharedKernel 3) 256).numThreads ∧
    0 < (getBlockUsageStats bigSharedDevice (bigSharedKernel 3) 256).numRegisters ∧
    (limitUsage bigSharedDevice (bigSharedKernel 3) ⟨256, 2⟩ (oneGiBLimits 2)).blocksPerGrid = 1 ∧
    (oneGiBLimits 2).sharedMem <
      (limitUsage bigSharedDevice (bigSharedKernel 3) ⟨256, 2⟩ (oneGiBLimits 2)).blocksPerGrid
        * (getBlockUsageStats bigSharedDevice (bigSharedKernel 3) 256).sharedMem := by
  decide

/-- C2 (failing input): three blocks of 1 GiB of shared memory under a cap of 1 GiB.  The deficit
of 2 GiB is read back from the `int` of line 79 as `-2 ^ 31`, the decrement is `-2`, and the
returned grid has five blocks where three were passed in. -/
theorem limitUsage_grid_grows :
    blocksPhysical bigSharedDevice (bigSharedKernel 1) ⟨256, 3⟩ (oneGiBLimits 3) = 3 ∧
    toInt32 (3 * (getBlockUsageStats bigSharedDevice (bigSharedKernel 1) 256).sharedMem
      - (oneGiBLimits 3).sharedMem) = -2 ^ 31 ∧
    ceilDiv (-2 ^ 31) (getBlockUsageStats bigSharedDevice (bigSharedKernel 1) 256).sharedMem
      = -2 ∧
    (limitUsage bigSharedDevice (bigSharedKernel 1) ⟨256, 3⟩ (oneGiBLimits 3)).blocksPerGrid = 5 ∧
    (3 : Nat) <
      (limitUsage bigSharedDevice (bigSharedKernel 1) ⟨256, 3⟩ (oneGiBLimits 3)).blocksPerGrid := by
  decide

/-- C4 (failing input): four blocks of 1 GiB of shared memory requested, three granted, under a
shared-memory cap of 1 GiB.  The candidate is three blocks; the negative decrement of the
shared-memory pass makes it five, above the block cap of three. -/
theorem limitUsage_block_cap_exceeded :
    blocksPhysical bigSharedDevice (bigSharedKernel 1) ⟨256, 4⟩ (oneGiBLimits 3) = 3 ∧
    (limitUsage bigSharedDevice (bigSharedKernel 1) ⟨256, 4⟩ (oneGiBLimits 3)).blocksPerGrid = 5 ∧
    (oneGiBLimits 3).numBlocks <
      (limitUsage bigSharedDevice (bigSharedKernel 1) ⟨256, 4⟩ (oneGiBLimits 3)).blocksPerGrid := by
  decide

/-- C5 (failing input): one block of 5 GiB of shared memory under a cap of 1 GiB.  A single block
exceeds the cap, yet the deficit of 4 GiB is `0` in the `int` of line 79, nothing is trimmed, and
the returned grid has one block, not zero. -/
theorem limitUsage_oversized_block_admitted :
    (oneGiBLimits 1).sharedMem <
      (getBlockUsageStats bigSharedDevice (bigSharedKernel 5) 256).sharedMem ∧
    (limitUsage bigSharedDevice (bigSharedKernel 5) ⟨256, 1⟩ (oneGiBLimits 1)).blocksPerGrid
      = 1 := by
  decide

/-! ## Resident blocks as a function of the block size -/

theorem ceilTo_mono (x y g : Nat) (h : x ≤ y) : ceilTo x g ≤ ceilTo y g := by
  unfold ceilTo
  exact Nat.mul_le_mul_right _ (Nat.div_le_div_right (Nat.add_le_add_right h _))

/-- A larger block never takes fewer registers, as long as the sum of line 44 does not wrap. -/
theorem getNumRegistersPerBlock_mono (d : cudaDeviceProp) (k : cudaFuncAttributes)
    (b1 b2 : Nat) (h : b1 ≤ b2) (h2 : b2 + (d.warpSize - 1) < SIZE_MOD) :
    getNumRegistersPerBlock d k b1 ≤ getNumRegistersPerBlock d k b2 := by
  rw [getNumRegistersPerBlock_of_fits d k b1 (by omega), getNumRegistersPerBlock_of_fits d k b2 h2]
  exact Nat.mul_le_mul_left _
    (ceilTo_mono _ _ _ (Nat.div_le_div_right (Nat.add_le_add_right h _)))

/-- A block of at least one thread takes no register only when the kernel uses none, the device
has no warp size or granularity, or the sum of line 44 wraps; a larger block then takes none
either. -/
theorem getNumRegistersPerBlock_zero (d : cudaDeviceProp) (k : cudaFuncAttributes)
    (b1 b2 : Nat) (h1 : 0 < b1) (h : b1 ≤ b2) (h0 : getNumRegistersPerBlock d k b1 = 0) :
    getNumRegistersPerBlock d k b2 = 0 := by
  rcases Nat.lt_or_ge (b2 + (d.warpSize - 1)) SIZE_MOD with h2 | h2
  swap
  · exact getNumRegistersPerBlock_of_wrap d k b2 h2
  rw [getNumRegistersPerBlock_of_fits d k b1 (by omega)] at h0
  rw [getNumRegistersPerBlock_of_fits d k b2 h2]
  rcases Nat.eq_zero_or_pos d.warpAllocationGranularity with hg | hg
  · simp [ceilTo, hg]
  rcases Nat.eq_zero_or_pos d.warpSize with hw | hw
  · simp [hw]
  rcases Nat.eq_zero_or_pos k.numRegs with hr | hr
  · simp [hr]
  exfalso
  have hc := le_ceilTo ((b1 + (d.warpSize - 1)) / d.warpSize) d.warpAllocationGranularity hg
  have hb := le_warps_mul b1 d.warpSize hw
  have hpos : 0 < (b1 + (d.warpSize - 1)) / d.warpSize := by
    rcases Nat.eq_zero_or_pos ((b1 + (d.warpSize - 1)) / d.warpSize) with hz | hz
    · rw [hz] at hb; omega
    · exact hz
  have hprod : 0 < k.numRegs * d.warpSize
      * ceilTo ((b1 + (d.warpSize - 1)) / d.warpSize) d.warpAllocationGranularity :=
    Nat.mul_pos (Nat.mul_pos hr hw) (lt_of_lt_of_le hpos hc)
  omega

theorem getRegisterLimit_anti (d : cudaDeviceProp) (k : cudaFuncAttributes)
    (b1 b2 : Nat) (h1 : 0 < b1) (h : b1 ≤ b2) :
    getRegisterLimit d k b2 ≤ getRegisterLimit d k b1 := by
  unfold getRegisterLimit
  rcases Nat.eq_zero_or_pos (getNumRegistersPerBlock d k b1) with h0 | h0
  · rw [getNumRegistersPerBlock_zero d k b1 b2 h1 h h0, h0]
  · rcases Nat.lt_or_ge (b2 + (d.warpSize - 1)) SIZE_MOD with h2 | h2
    · exact Nat.div_le_div_left (getNumRegistersPerBlock_mono d k b1 b2 h h2) h0
    · rw [getNumRegistersPerBlock_of_wrap d k b2 h2, Nat.div_zero]
      exact Nat.zero_le _

theorem getHardwareLimit_anti (d : cudaDeviceProp) (b1 b2 : Nat) (h1 : 0 < b1) (h : b1 ≤ b2) :
    getHardwareLimit d b2 ≤ getHardwareLimit d b1 := by
  unfold getHardwareLimit
  have : d.maxThreadsPerMultiProcessor / b2 ≤ d.maxThreadsPerMultiProcessor / b1 :=
    Nat.div_le_div_left h h1
  omega

/-- C11: with the ceilings as the specification defines them, `getMaxResidentBlocksPerSM` does
not increase with the block size: for positive block sizes `b1 ≤ b2` on one device and kernel,
the resident blocks at `b2` are at most those at `b1`. -/
theorem getMaxResidentBlocksPerSM_anti (d : cudaDeviceProp) (k : cudaFuncAttributes)
    (b1 b2 : Nat) (h1 : 0 < b1) (h : b1 ≤ b2) :
    getMaxResidentBlocksPerSM d k b2 ≤ getMaxResidentBlocksPerSM d k b1 := by
  have hh := getHardwareLimit_anti d b1 b2 h1 h
  have hr := getRegisterLimit_anti d k b1 b2 h1 h
  simp only [getMaxResidentBlocksPerSM, min3]
  omega

theorem getMaxResidentBlocksPerSM_anti_witness :
    0 < 128 ∧ 128 ≤ 256 ∧
    getMaxResidentBlocksPerSM scenarioDevice scenarioKernel 256
      ≤ getMaxResidentBlocksPerSM scenarioDevice scenarioKernel 128 :=
  ⟨by decide, by decide,
    getMaxResidentBlocksPerSM_anti scenarioDevice scenarioKernel 128 256 (by decide) (by decide)⟩

/-! ## Occupancy ratios -/

/-- The threads of the resident blocks of any block size fit the multiprocessor. -/
theorem blockOccupancy_le (d : cudaDeviceProp) (k : cudaFuncAttributes) (b : Nat) :
    blockOccupancy d k b ≤ d.maxThreadsPerMultiProcessor := by
  have h1 : getMaxResidentBlocksPerSM d k b ≤ d.maxThreadsPerMultiProcessor / b := by
    simp only [getMaxResidentBlocksPerSM, min3, getHardwareLimit]
    omega
  exact le_trans (Nat.mul_le_mul_left b h1) (Nat.mul_div_le _ _)

/-- C12: on a device with a positive thread limit and for a launch configuration with a positive
block size, the threads `getOccupancyForKernel` finds resident,
`threadNum × getMaxResidentBlocksPerSM(threadNum)`, are at most `maxThreadsPerMultiProcessor`, and
the ratio it returns lies between 0 and 1. -/
theorem getOccupancyForKernel_unit (gpu : cudaDeviceProp) (kernel : AbstractElasticKernel)
    (hd : 0 < gpu.maxThreadsPerMultiProcessor) (_ht : 0 < kernel.launchParams.threadsPerBlock) :
    threadNum gpu kernel
        * getMaxResidentBlocksPerSM gpu kernel.kernelProperties (threadNum gpu kernel)
      ≤ gpu.maxThreadsPerMultiProcessor ∧
    0 ≤ getOccupancyForKernel gpu kernel ∧ getOccupancyForKernel gpu kernel ≤ 1 := by
  have hle := blockOccupancy_le gpu kernel.kernelProperties (threadNum gpu kernel)
  have hq : (0 : ℚ) < (gpu.maxThreadsPerMultiProcessor : ℚ) := by exact_mod_cast hd
  refine ⟨hle, ?_, ?_⟩
  · unfold getOccupancyForKernel
    positivity
  · unfold getOccupancyForKernel occupiedThreads
    rw [div_le_one hq]
    exact_mod_cast hle

theorem getOccupancyForKernel_unit_witness :
    threadNum scenarioDevice (scenarioElasticKernel 256 112 4096)
        * getMaxResidentBlocksPerSM scenarioDevice
            (scenarioElasticKernel 256 112 4096).kernelProperties
            (threadNum scenarioDevice (scenarioElasticKernel 256 112 4096))
      ≤ scenarioDevice.maxThreadsPerMultiProcessor ∧
    0 ≤ getOccupancyForKernel scenarioDevice (scenarioElasticKernel 256 112 4096) ∧
    getOccupancyForKernel scenarioDevice (scenarioElasticKernel 256 112 4096) ≤ 1 :=
  getOccupancyForKernel_unit scenarioDevice (scenarioElasticKernel 256 112 4096)
    (by decide) (by decide)

/-- C13 (counterexample): a kernel with a footprint of 4 GiB on the scenario device, which has
3 GiB of global memory: both are positive and the storage occupancy is 4/3. -/
theorem getMemoryOccupancyForKernel_above_one :
    0 < scenarioDevice.totalGlobalMem ∧
    0 < (scenarioElasticKernel 256 112 4294967296).memoryConsumption ∧
    getMemoryOccupancyForKernel scenarioDevice (scenarioElasticKernel 256 112 4294967296)
      = 4 / 3 ∧
    ¬ getMemoryOccupancyForKernel scenarioDevice (scenarioElasticKernel 256 112 4294967296)
      ≤ 1 := by
  have e : getMemoryOccupancyForKernel scenarioDevice
      (scenarioElasticKernel 256 112 4294967296) = 4 / 3 := by
    simp only [getMemoryOccupancyForKernel, scenarioElasticKernel, scenarioDevice]
    norm_num
  refine ⟨by decide, by decide, e, ?_⟩
  rw [e]
  norm_num

/-- C13 (amended): on a device with positive global memory, a kernel whose positive footprint is
at most the global memory has a storage occupancy between 0 and 1. -/
theorem getMemoryOccupancyForKernel_unit (deviceProps : cudaDeviceProp)
    (kernel : AbstractElasticKernel) (hd : 0 < deviceProps.totalGlobalMem)
    (_hm : 0 < kernel.memoryConsumption)
    (hle : kernel.memoryConsumption ≤ deviceProps.totalGlobalMem) :
    0 ≤ getMemoryOccupancyForKernel deviceProps kernel ∧
    getMemoryOccupancyForKernel deviceProps kernel ≤ 1 := by
  have hq : (0 : ℚ) < (deviceProps.totalGlobalMem : ℚ) := by exact_mod_cast hd
  constructor
  · unfold getMemoryOccupancyForKernel
    positivity
  · unfold getMemoryOccupancyForKernel
    rw [div_le_one hq]
    exact_mod_cast hle

theorem getMemoryOccupancyForKernel_unit_witness :
    0 ≤ getMemoryOccupancyForKernel scenarioDevice (scenarioElasticKernel 256 112 1073741824) ∧
    getMemoryOccupancyForKernel scenarioDevice (scenarioElasticKernel 256 112 1073741824) ≤ 1 :=
  getMemoryOccupancyForKernel_unit scenarioDevice (scenarioElasticKernel 256 112 1073741824)
    (by decide) (by decide) (by decide)

/-! ## The block-size search: one pass through the loop -/

theorem searchUpdate_of_gt (d : cudaDeviceProp) (k : cudaFuncAttributes) (s : SearchState)
    (h : s.highestOcc < blockOccupancy d k s.blocksize) :
    searchUpdate d k s = { blocksize := s.blocksize, maxBLockSize := s.blocksize,
                           highestOcc := blockOccupancy d k s.blocksize } := by
  unfold searchUpdate
  simp only [gt_iff_lt]
  rw [if_pos h]

theorem searchUpdate_of_le (d : cudaDeviceProp) (k : cudaFuncAttributes) (s : SearchState)
    (h : blockOccupancy d k s.blocksize ≤ s.highestOcc) : searchUpdate d k s = s := by
  unfold searchUpdate
  simp only [gt_iff_lt]
  rw [if_neg (Nat.not_lt.mpr h)]

theorem searchStep_zero (d : cudaDeviceProp) (k : cudaFuncAttributes) (s : SearchState)
    (h : s.blocksize = 0) : searchStep d k s = .done s.maxBLockSize := by
  unfold searchStep
  rw [if_pos h]

/-- A candidate that beats the running best and fills the multiprocessor ends the search. -/
theorem searchStep_gt_exit (d : cudaDeviceProp) (k : cudaFuncAttributes) (s : SearchState)
    (hz : s.blocksize ≠ 0) (h : s.highestOcc < blockOccupancy d k s.blocksize)
    (he : blockOccupancy d k s.blocksize = d.maxThreadsPerMultiProcessor) :
    searchStep d k s = .done s.blocksize := by
  unfold searchStep
  rw [if_neg hz, searchUpdate_of_gt d k s h]
  simp only
  rw [if_pos he]

/-- A candidate that beats the running best without filling the multiprocessor is kept. -/
theorem searchStep_gt_next (d : cudaDeviceProp) (k : cudaFuncAttributes) (s : SearchState)
    (hz : s.blocksize ≠ 0) (h : s.highestOcc < blockOccupancy d k s.blocksize)
    (he : blockOccupancy d k s.blocksize ≠ d.maxThreadsPerMultiProcessor) :
    searchStep d k s = .next { blocksize := wrapSub s.blocksize d.warpSize,
                               maxBLockSize := s.blocksize,
                               highestOcc := blockOccupancy d k s.blocksize } := by
  unfold searchStep
  rw [if_neg hz, searchUpdate_of_gt d k s h]
  simp only
  rw [if_neg he]

/-- A candidate that does not beat a running best that fills the multiprocessor ends the
search. -/
theorem searchStep_le_exit (d : cudaDeviceProp) (k : cudaFuncAttributes) (s : SearchState)
    (hz : s.blocksize ≠ 0) (h : blockOccupancy d k s.blocksize ≤ s.highestOcc)
    (he : s.highestOcc = d.maxThreadsPerMultiProcessor) :
    searchStep d k s = .done s.maxBLockSize := by
  unfold searchStep
  rw [if_neg hz, searchUpdate_of_le d k s h]
  simp only
  rw [if_pos he]

/-- A candidate that does not beat the running best is passed over. -/
theorem searchStep_le_next (d : cudaDeviceProp) (k : cudaFuncAttributes) (s : SearchState)
    (hz : s.blocksize ≠ 0) (h : blockOccupancy d k s.blocksize ≤ s.highestOcc)
    (he : s.highestOcc ≠ d.maxThreadsPerMultiProcessor) :
    searchStep d k s = .next { blocksize := wrapSub s.blocksize d.warpSize,
                               maxBLockSize := s.maxBLockSize,
                               highestOcc := s.highestOcc } := by
  unfold searchStep
  rw [if_neg hz, searchUpdate_of_le d k s h]
  simp only
  rw [if_neg he]

theorem searchLoop_succ_done (d : cudaDeviceProp) (k : cudaFuncAttributes) (fuel : Nat)
    (s : SearchState) (r : Nat) (h : searchStep d k s = .done r) :
    searchLoop d k (fuel + 1) s = some r := by
  simp only [searchLoop, h]

theorem searchLoop_succ_next (d : cudaDeviceProp) (k : cudaFuncAttributes) (fuel : Nat)
    (s s' : SearchState) (h : searchStep d k s = .next s') :
    searchLoop d k (fuel + 1) s = searchLoop d k fuel s' := by
  simp only [searchLoop, h]

theorem searchTested_succ_next (d : cudaDeviceProp) (k : cudaFuncAttributes) (fuel : Nat)
    (s s' : SearchState) (h : searchStep d k s = .next s') :
    searchTested d k (fuel + 1) s = s.blocksize :: searchTested d k fuel s' := by
  simp only [searchTested, h]

theorem searchTested_succ_done (d : cudaDeviceProp) (k : cudaFuncAttributes) (fuel : Nat)
    (s : SearchState) (r : Nat) (h : searchStep d k s = .done r) :
    searchTested d k (fuel + 1) s = if s.blocksize = 0 then [] else [s.blocksize] := by
  simp only [searchTested, h]

/-- The value a search returns and the candidates it evaluated.  Either no candidate beat the
occupancy the search started with, and the block size it started with is returned; or the
returned block size is the first candidate, in the order of the search, whose occupancy is the
greatest of all. -/
theorem searchLoop_spec (d : cudaDeviceProp) (k : cudaFuncAttributes) :
    ∀ (fuel : Nat) (s : SearchState) (r : Nat), searchLoop d k fuel s = some r →
      (r = s.maxBLockSize ∧
        ∀ b ∈ searchTested d k fuel s, blockOccupancy d k b ≤ s.highestOcc) ∨
      (∃ pre post : List Nat, searchTested d k fuel s = pre ++ r :: post ∧
        s.highestOcc < blockOccupancy d k r ∧
        (∀ b ∈ pre, blockOccupancy d k b < blockOccupancy d k r) ∧
        (∀ b ∈ post, blockOccupancy d k b ≤ blockOccupancy d k r)) := by
  intro fuel
  induction fuel with
  | zero => intro s r h; simp [searchLoop] at h
  | succ fuel ih =>
    intro s r h
    by_cases hz : s.blocksize = 0
    · have hs := searchStep_zero d k s hz
      rw [searchLoop_succ_done d k fuel s _ hs] at h
      rw [searchTested_succ_done d k fuel s _ hs, if_pos hz]
      left
      exact ⟨(Option.some.inj h).symm, by simp⟩
    · rcases Nat.lt_or_ge s.highestOcc (blockOccupancy d k s.blocksize) with hgt | hle
      · by_cases he : blockOccupancy d k s.blocksize = d.maxThreadsPerMultiProcessor
        · have hs := searchStep_gt_exit d k s hz hgt he
          rw [searchLoop_succ_done d k fuel s _ hs] at h
          rw [searchTested_succ_done d k fuel s _ hs, if_neg hz]
          have hr : r = s.blocksize := (Option.some.inj h).symm
          right
          exact ⟨[], [], by rw [hr]; rfl, by rw [hr]; exact hgt, by simp, by simp⟩
        · have hs := searchStep_gt_next d k s hz hgt he
          rw [searchLoop_succ_next d k fuel s _ hs] at h
          rw [searchTested_succ_next d k fuel s _ hs]
          right
          rcases ih _ r h with ⟨hr, hall⟩ | ⟨pre, post, hT, hlt, hpre, hpost⟩
          · have hr' : r = s.blocksize := hr
            exact ⟨[], _, by rw [hr']; rfl, by rw [hr']; exact hgt, by simp,
              by rw [hr']; exact hall⟩
          · have hlt' : blockOccupancy d k s.blocksize < blockOccupancy d k r := hlt
            refine ⟨s.blocksize :: pre, post, by rw [hT]; rfl, lt_trans hgt hlt', ?_, hpost⟩
            intro b hb
            rcases List.mem_cons.mp hb with hb | hb
            · rw [hb]; exact hlt'
            · exact hpre b hb
      · by_cases he : s.highestOcc = d.maxThreadsPerMultiProcessor
        · have hs := searchStep_le_exit d k s hz hle he
          rw [searchLoop_succ_done d k fuel s _ hs] at h
          rw [searchTested_succ_done d k fuel s _ hs, if_neg hz]
          left
          refine ⟨(Option.some.inj h).symm, ?_⟩
          intro b hb
          rw [List.mem_singleton.mp hb]
          exact hle
        · have hs := searchStep_le_next d k s hz hle he
          rw [searchLoop_succ_next d k fuel s _ hs] at h
          rw [searchTested_succ_next d k fuel s _ hs]
          rcases ih _ r h with ⟨hr, hall⟩ | ⟨pre, post, hT, hlt, hpre, hpost⟩
          · left
            refine ⟨hr, ?_⟩
            intro b hb
            rcases List.mem_cons.mp hb with hb | hb
            · rw [hb]; exact hle
            · exact hall b hb
          · right
            have hlt' : s.highestOcc < blockOccupancy d k r := hlt
            refine ⟨s.blocksize :: pre, post, by rw [hT]; rfl, hlt', ?_, hpost⟩
            intro b hb
            rcases List.mem_cons.mp hb with hb | hb
            · rw [hb]; exact lt_of_le_of_lt hle hlt'
            · exact hpre b hb

/-- Each pass through the loop either returns or goes on, according to the four cases above. -/
theorem searchStep_cases (d : cudaDeviceProp) (k : cudaFuncAttributes) (s : SearchState)
    (hz : s.blocksize ≠ 0) :
    (∃ r, searchStep d k s = .done r) ∨
    (∃ mb ho, searchStep d k s
      = .next { blocksize := wrapSub s.blocksize d.warpSize, maxBLockSize := mb,
                highestOcc := ho }) := by
  rcases Nat.lt_or_ge s.highestOcc (blockOccupancy d k s.blocksize) with hgt | hle
  · by_cases he : blockOccupancy d k s.blocksize = d.maxThreadsPerMultiProcessor
    · exact Or.inl ⟨_, searchStep_gt_exit d k s hz hgt he⟩
    · exact Or.inr ⟨_, _, searchStep_gt_next d k s hz hgt he⟩
  · by_cases he : s.highestOcc = d.maxThreadsPerMultiProcessor
    · exact Or.inl ⟨_, searchStep_le_exit d k s hz hle he⟩
    · exact Or.inr ⟨_, _, searchStep_le_next d k s hz hle he⟩

/-- The loop body only runs on non-zero block sizes. -/
theorem searchTested_ne_zero (d : cudaDeviceProp) (k : cudaFuncAttributes) :
    ∀ (fuel : Nat) (s : SearchState), ∀ b ∈ searchTested d k fuel s, b ≠ 0 := by
  intro fuel
  induction fuel with
  | zero => intro s b hb; simp [searchTested] at hb
  | succ fuel ih =>
    intro s b hb
    by_cases hz : s.blocksize = 0
    · rw [searchTested_succ_done d k fuel s _ (searchStep_zero d k s hz), if_pos hz] at hb
      simp at hb
    · rcases searchStep_cases d k s hz with ⟨r, hs⟩ | ⟨mb, ho, hs⟩
      · rw [searchTested_succ_done d k fuel s _ hs, if_neg hz] at hb
        rw [List.mem_singleton.mp hb]; exact hz
      · rw [searchTested_succ_next d k fuel s _ hs] at hb
        rcases List.mem_cons.mp hb with hb | hb
        · rw [hb]; exact hz
        · exact ih _ b hb

/-- Once a search has returned, more fuel changes neither its result nor the candidates it
evaluated. -/
theorem searchLoop_add (d : cudaDeviceProp) (k : cudaFuncAttributes) (m : Nat) :
    ∀ (fuel : Nat) (s : SearchState) (r : Nat), searchLoop d k fuel s = some r →
      searchLoop d k (fuel + m) s = some r ∧
      searchTested d k (fuel + m) s = searchTested d k fuel s := by
  intro fuel
  induction fuel with
  | zero => intro s r h; simp [searchLoop] at h
  | succ fuel ih =>
    intro s r h
    have e : fuel + 1 + m = (fuel + m) + 1 := by omega
    rw [e]
    by_cases hz : s.blocksize = 0
    · have hs := searchStep_zero d k s hz
      rw [searchLoop_succ_done d k fuel s _ hs] at h
      rw [searchLoop_succ_done d k _ s _ hs, searchTested_succ_done d k _ s _ hs,
        searchTested_succ_done d k _ s _ hs]
      exact ⟨h, rfl⟩
    · rcases searchStep_cases d k s hz with ⟨r', hs⟩ | ⟨mb, ho, hs⟩
      · rw [searchLoop_succ_done d k fuel s _ hs] at h
        rw [searchLoop_succ_done d k _ s _ hs, searchTested_succ_done d k _ s _ hs,
          searchTested_succ_done d k _ s _ hs]
        exact ⟨h, rfl⟩
      · rw [searchLoop_succ_next d k fuel s _ hs] at h
        rw [searchLoop_succ_next d k _ s _ hs, searchTested_succ_next d k _ s _ hs,
          searchTested_succ_next d k _ s _ hs]
        obtain ⟨h1, h2⟩ := ih _ r h
        exact ⟨h1, by rw [h2]⟩

/-! ## The block-size search: the value returned -/

/-- C15: when `getOptimalBlockSize` returns a non-zero block size `r`, the occupancy
`r × getMaxResidentBlocksPerSM(r)` is at least `b × getMaxResidentBlocksPerSM(b)` for every
candidate `b` the search evaluated. -/
theorem getOptimalBlockSize_best (gpu : cudaDeviceProp) (kernel : AbstractElasticKernel)
    (fuel r : Nat) (h : getOptimalBlockSize gpu kernel fuel = some r) (hr : r ≠ 0) :
    ∀ b ∈ testedBlockSizes gpu kernel fuel,
      b * getMaxResidentBlocksPerSM gpu kernel.kernelProperties b
        ≤ r * getMaxResidentBlocksPerSM gpu kernel.kernelProperties r := by
  intro b hb
  rcases searchLoop_spec gpu kernel.kernelProperties fuel _ r h with
    ⟨h0, _⟩ | ⟨pre, post, hT, _, hpre, hpost⟩
  · exact absurd h0 hr
  · have hb' : b ∈ pre ++ r :: post := hT ▸ hb
    rcases List.mem_append.mp hb' with h1 | h1
    · exact (hpre b h1).le
    · rcases List.mem_cons.mp h1 with h2 | h2
      · rw [h2]
      · exact hpost b h2

theorem getOptimalBlockSize_best_witness :
    getOptimalBlockSize scenarioDevice (boundedKernel 992) 32 = some 512 ∧ 512 ≠ 0 ∧
    ∀ b ∈ testedBlockSizes scenarioDevice (boundedKernel 992) 32,
      b * getMaxResidentBlocksPerSM scenarioDevice (boundedKernel 992).kernelProperties b
        ≤ 512 * getMaxResidentBlocksPerSM scenarioDevice
            (boundedKernel 992).kernelProperties 512 :=
  ⟨by decide, by decide,
    getOptimalBlockSize_best scenarioDevice (boundedKernel 992) 32 512 (by decide) (by decide)⟩

/-- A search that returns gives `0` exactly when no candidate it evaluated has a positive
occupancy; otherwise it gives one of the candidates, and that one is not `0`. -/
theorem getOptimalBlockSize_zero_iff (gpu : cudaDeviceProp) (kernel : AbstractElasticKernel)
    (fuel r : Nat) (h : getOptimalBlockSize gpu kernel fuel = some r) :
    (r = 0 ↔ ∀ b ∈ testedBlockSizes gpu kernel fuel,
      blockOccupancy gpu kernel.kernelProperties b = 0) ∧
    ((∃ b ∈ testedBlockSizes gpu kernel fuel, 0 < blockOccupancy gpu kernel.kernelProperties b) →
      r ≠ 0 ∧ r ∈ testedBlockSizes gpu kernel fuel) := by
  rcases searchLoop_spec gpu kernel.kernelProperties fuel _ r h with
    ⟨h0, hall⟩ | ⟨pre, post, hT, hlt, _, _⟩
  · have hr : r = 0 := h0
    have hall' : ∀ b ∈ testedBlockSizes gpu kernel fuel,
        blockOccupancy gpu kernel.kernelProperties b = 0 :=
      fun b hb => Nat.le_zero.mp (hall b hb)
    refine ⟨⟨fun _ => hall', fun _ => hr⟩, ?_⟩
    rintro ⟨b, hb, hpos⟩
    rw [hall' b hb] at hpos
    exact absurd hpos (lt_irrefl 0)
  · have hmem : r ∈ testedBlockSizes gpu kernel fuel := by
      unfold testedBlockSizes
      rw [hT]
      simp
    have hne : r ≠ 0 := searchTested_ne_zero gpu kernel.kernelProperties fuel _ r hmem
    have hpos : 0 < blockOccupancy gpu kernel.kernelProperties r :=
      lt_of_le_of_lt (Nat.zero_le _) hlt
    refine ⟨⟨fun h0 => absurd h0 hne, fun hall => ?_⟩, fun _ => ⟨hne, hmem⟩⟩
    rw [hall r hmem] at hpos
    exact absurd hpos (lt_irrefl 0)

/-- The block size a search returns is the first, in the order of the search, among the
candidates of greatest occupancy: every candidate evaluated before it has a strictly smaller
occupancy. -/
theorem getOptimalBlockSize_first (gpu : cudaDeviceProp) (kernel : AbstractElasticKernel)
    (fuel r : Nat) (h : getOptimalBlockSize gpu kernel fuel = some r) (hr : r ≠ 0) :
    ∃ pre post : List Nat, testedBlockSizes gpu kernel fuel = pre ++ r :: post ∧
      (∀ b ∈ pre, blockOccupancy gpu kernel.kernelProperties b
        < blockOccupancy gpu kernel.kernelProperties r) ∧
      (∀ b ∈ post, blockOccupancy gpu kernel.kernelProperties b
        ≤ blockOccupancy gpu kernel.kernelProperties r) := by
  rcases searchLoop_spec gpu kernel.kernelProperties fuel _ r h with
    ⟨h0, _⟩ | ⟨pre, post, hT, _, hpre, hpost⟩
  · exact absurd h0 hr
  · exact ⟨pre, post, hT, hpre, hpost⟩

/-! ## The block-size search from a multiple of the warp size -/

theorem wrapSub_succ_mul (q w : Nat) : wrapSub ((q + 1) * w) w = q * w := by
  unfold wrapSub
  have h : w ≤ (q + 1) * w := Nat.le_mul_of_pos_left w (Nat.succ_pos q)
  rw [if_pos h, Nat.succ_mul, Nat.add_sub_cancel]

theorem searchStep_of_ne (d : cudaDeviceProp) (k : cudaFuncAttributes) (s : SearchState)
    (hz : s.blocksize ≠ 0) :
    searchStep d k s =
      if (searchUpdate d k s).highestOcc = d.maxThreadsPerMultiProcessor then
        .done (searchUpdate d k s).maxBLockSize
      else .next { blocksize := wrapSub s.blocksize d.warpSize,
                   maxBLockSize := (searchUpdate d k s).maxBLockSize,
                   highestOcc := (searchUpdate d k s).highestOcc } := by
  unfold searchStep
  rw [if_neg hz]

theorem searchStepNoExit_zero (d : cudaDeviceProp) (k : cudaFuncAttributes) (s : SearchState)
    (h : s.blocksize = 0) : searchStepNoExit d k s = .done s.maxBLockSize := by
  unfold searchStepNoExit
  rw [if_pos h]

theorem searchStepNoExit_of_ne (d : cudaDeviceProp) (k : cudaFuncAttributes) (s : SearchState)
    (hz : s.blocksize ≠ 0) :
    searchStepNoExit d k s =
      .next { blocksize := wrapSub s.blocksize d.warpSize,
              maxBLockSize := (searchUpdate d k s).maxBLockSize,
              highestOcc := (searchUpdate d k s).highestOcc } := by
  unfold searchStepNoExit
  rw [if_neg hz]

/-- Without the early exit, a running best that already fills the multiprocessor is what the
search returns: no later candidate is strictly better. -/
theorem searchLoopNoExit_full (d : cudaDeviceProp) (k : cudaFuncAttributes) :
    ∀ (q : Nat) (s : SearchState), s.blocksize = q * d.warpSize →
      d.maxThreadsPerMultiProcessor ≤ s.highestOcc →
      searchLoopNoExit d k (q + 1) s = some s.maxBLockSize := by
  intro q
  induction q with
  | zero =>
    intro s hb _
    have hz : s.blocksize = 0 := by rw [hb, Nat.zero_mul]
    simp only [searchLoopNoExit, searchStepNoExit_zero d k s hz]
  | succ q ih =>
    intro s hb hfull
    by_cases hz : s.blocksize = 0
    · simp only [searchLoopNoExit, searchStepNoExit_zero d k s hz]
    · have hu : searchUpdate d k s = s :=
        searchUpdate_of_le d k s (le_trans (blockOccupancy_le d k _) hfull)
      have hn := searchStepNoExit_of_ne d k s hz
      rw [hu, hb, wrapSub_succ_mul] at hn
      have e : searchLoopNoExit d k (q + 1 + 1) s
          = searchLoopNoExit d k (q + 1)
              { blocksize := q * d.warpSize, maxBLockSize := s.maxBLockSize,
                highestOcc := s.highestOcc } := by
        simp only [searchLoopNoExit, hn]
      rw [e]
      exact ih _ rfl hfull

/-- From a multiple `q × warpSize` of the warp size the search returns within `q + 1` loop tests,
and it returns what the search without the early exit returns. -/
theorem searchLoop_aligned (d : cudaDeviceProp) (k : cudaFuncAttributes) :
    ∀ (q : Nat) (s : SearchState), s.blocksize = q * d.warpSize →
      ∃ r, searchLoop d k (q + 1) s = some r ∧ searchLoopNoExit d k (q + 1) s = some r := by
  intro q
  induction q with
  | zero =>
    intro s hb
    have hz : s.blocksize = 0 := by rw [hb, Nat.zero_mul]
    exact ⟨s.maxBLockSize, searchLoop_succ_done d k 0 s _ (searchStep_zero d k s hz),
      by simp only [searchLoopNoExit, searchStepNoExit_zero d k s hz]⟩
  | succ q ih =>
    intro s hb
    by_cases hz : s.blocksize = 0
    · exact ⟨s.maxBLockSize, searchLoop_succ_done d k _ s _ (searchStep_zero d k s hz),
        by simp only [searchLoopNoExit, searchStepNoExit_zero d k s hz]⟩
    · have hs := searchStep_of_ne d k s hz
      have hn := searchStepNoExit_of_ne d k s hz
      rw [hb, wrapSub_succ_mul] at hs hn
      have en : searchLoopNoExit d k (q + 1 + 1) s
          = searchLoopNoExit d k (q + 1)
              { blocksize := q * d.warpSize,
                maxBLockSize := (searchUpdate d k s).maxBLockSize,
                highestOcc := (searchUpdate d k s).highestOcc } := by
        simp only [searchLoopNoExit, hn]
      by_cases he : (searchUpdate d k s).highestOcc = d.maxThreadsPerMultiProcessor
      · rw [if_pos he] at hs
        refine ⟨_, searchLoop_succ_done d k _ s _ hs, ?_⟩
        rw [en]
        exact searchLoopNoExit_full d k q _ rfl (le_of_eq he.symm)
      · rw [if_neg he] at hs
        obtain ⟨r, h1, h2⟩ := ih
          { blocksize := q * d.warpSize, maxBLockSize := (searchUpdate d k s).maxBLockSize,
            highestOcc := (searchUpdate d k s).highestOcc } rfl
        exact ⟨r, by rw [searchLoop_succ_next d k _ s _ hs]; exact h1, by rw [en]; exact h2⟩

/-- From a multiple `q × warpSize` of the warp size every candidate the search evaluates is a
multiple of the warp size between the warp size and the start size. -/
theorem searchTested_aligned (d : cudaDeviceProp) (k : cudaFuncAttributes) :
    ∀ (q : Nat) (s : SearchState), s.blocksize = q * d.warpSize →
      ∀ b ∈ searchTested d k (q + 1) s, d.warpSize ∣ b ∧ d.warpSize ≤ b ∧ b ≤ s.blocksize := by
  intro q
  induction q with
  | zero =>
    intro s hb b hmem
    have hz : s.blocksize = 0 := by rw [hb, Nat.zero_mul]
    rw [searchTested_succ_done d k 0 s _ (searchStep_zero d k s hz), if_pos hz] at hmem
    simp at hmem
  | succ q ih =>
    intro s hb b hmem
    by_cases hz : s.blocksize = 0
    · rw [searchTested_succ_done d k _ s _ (searchStep_zero d k s hz), if_pos hz] at hmem
      simp at hmem
    · have hself : d.warpSize ∣ s.blocksize ∧ d.warpSize ≤ s.blocksize ∧
          s.blocksize ≤ s.blocksize := by
        refine ⟨⟨q + 1, by rw [hb, Nat.mul_comm]⟩, ?_, le_refl _⟩
        rw [hb]
        exact Nat.le_mul_of_pos_left _ (Nat.succ_pos q)
      rcases searchStep_cases d k s hz with ⟨r, hs⟩ | ⟨mb, ho, hs⟩
      · rw [searchTested_succ_done d k _ s _ hs, if_neg hz] at hmem
        rw [List.mem_singleton.mp hmem]
        exact hself
      · rw [searchTested_succ_next d k _ s _ hs] at hmem
        rcases List.mem_cons.mp hmem with h1 | h1
        · rw [h1]; exact hself
        · have hw : wrapSub s.blocksize d.warpSize = q * d.warpSize := by
            rw [hb]; exact wrapSub_succ_mul q d.warpSize
          rw [hw] at h1
          obtain ⟨a1, a2, a3⟩ := ih _ rfl b h1
          refine ⟨a1, a2, le_trans a3 ?_⟩
          show q * d.warpSize ≤ s.blocksize
          rw [hb]
          exact Nat.mul_le_mul_right _ (Nat.le_succ q)

/-- From a multiple of the warp size the candidates are evaluated in strictly descending
order. -/
theorem searchTested_aligned_pairwise (d : cudaDeviceProp) (k : cudaFuncAttributes) :
    ∀ (q : Nat) (s : SearchState), s.blocksize = q * d.warpSize →
      (searchTested d k (q + 1) s).Pairwise (fun a b => b < a) := by
  intro q
  induction q with
  | zero =>
    intro s hb
    have hz : s.blocksize = 0 := by rw [hb, Nat.zero_mul]
    rw [searchTested_succ_done d k 0 s _ (searchStep_zero d k s hz), if_pos hz]
    exact List.Pairwise.nil
  | succ q ih =>
    intro s hb
    by_cases hz : s.blocksize = 0
    · rw [searchTested_succ_done d k _ s _ (searchStep_zero d k s hz), if_pos hz]
      exact List.Pairwise.nil
    · rcases searchStep_cases d k s hz with ⟨r, hs⟩ | ⟨mb, ho, hs⟩
      · rw [searchTested_succ_done d k _ s _ hs, if_neg hz]
        exact List.pairwise_singleton _ _
      · rw [searchTested_succ_next d k _ s _ hs]
        have hw : wrapSub s.blocksize d.warpSize = q * d.warpSize := by
          rw [hb]; exact wrapSub_succ_mul q d.warpSize
        rw [hw]
        have hpos : 0 < d.warpSize := by
          rcases Nat.eq_zero_or_pos d.warpSize with h0 | h0
          · rw [h0, Nat.mul_zero] at hb; exact absurd hb hz
          · exact h0
        refine List.pairwise_cons.mpr ⟨?_, ih _ rfl⟩
        intro x hx
        obtain ⟨_, _, a3⟩ := searchTested_aligned d k q _ rfl x hx
        have a4 : x ≤ q * d.warpSize := a3
        rw [hb, Nat.succ_mul]
        omega

/-- From a start size that is a multiple of the warp size, every candidate larger than the
returned block size has a strictly smaller occupancy. -/
theorem getOptimalBlockSize_largest (gpu : cudaDeviceProp) (kernel : AbstractElasticKernel)
    (h : gpu.warpSize
      ∣ min2 kernel.kernelProperties.maxThreadsPerBlock gpu.maxThreadsPerMultiProcessor)
    (r : Nat)
    (hret : getOptimalBlockSize gpu kernel
      (min2 kernel.kernelProperties.maxThreadsPerBlock gpu.maxThreadsPerMultiProcessor
        / gpu.warpSize + 1) = some r)
    (hr : r ≠ 0) :
    ∀ b ∈ testedBlockSizes gpu kernel
        (min2 kernel.kernelProperties.maxThreadsPerBlock gpu.maxThreadsPerMultiProcessor
          / gpu.warpSize + 1),
      r < b → blockOccupancy gpu kernel.kernelProperties b
        < blockOccupancy gpu kernel.kernelProperties r := by
  intro b hb hlt
  obtain ⟨pre, post, hT, hpre, _⟩ := getOptimalBlockSize_first gpu kernel _ r hret hr
  have hpw := searchTested_aligned_pairwise gpu kernel.kernelProperties _
    (searchStart gpu kernel) (Nat.div_mul_cancel h).symm
  have hT' : searchTested gpu kernel.kernelProperties
      (min2 kernel.kernelProperties.maxThreadsPerBlock gpu.maxThreadsPerMultiProcessor
        / gpu.warpSize + 1) (searchStart gpu kernel) = pre ++ r :: post := hT
  rw [hT'] at hpw
  have hb' : b ∈ pre ++ r :: post := hT ▸ hb
  rcases List.mem_append.mp hb' with h1 | h1
  · exact hpre b h1
  · exfalso
    rcases List.mem_cons.mp h1 with h2 | h2
    · omega
    · have := (List.pairwise_cons.mp (List.pairwise_append.mp hpw).2.1).1 b h2
      omega

/-- C20: the early exit is sound.  No candidate has an occupancy above
`maxThreadsPerMultiProcessor`, and when the start size is a multiple of the warp size the
search returns, within `start / warpSize + 1` loop tests, the block size that the search without
the early exit returns. -/
theorem getOptimalBlockSize_early_exit (gpu : cudaDeviceProp) (kernel : AbstractElasticKernel)
    (h : gpu.warpSize
      ∣ min2 kernel.kernelProperties.maxThreadsPerBlock gpu.maxThreadsPerMultiProcessor) :
    (∀ b, b * getMaxResidentBlocksPerSM gpu kernel.kernelProperties b
      ≤ gpu.maxThreadsPerMultiProcessor) ∧
    ∃ r, getOptimalBlockSize gpu kernel
          (min2 kernel.kernelProperties.maxThreadsPerBlock gpu.maxThreadsPerMultiProcessor
            / gpu.warpSize + 1) = some r ∧
      getOptimalBlockSizeNoExit gpu kernel
          (min2 kernel.kernelProperties.maxThreadsPerBlock gpu.maxThreadsPerMultiProcessor
            / gpu.warpSize + 1) = some r :=
  ⟨fun b => blockOccupancy_le gpu kernel.kernelProperties b,
    searchLoop_aligned gpu kernel.kernelProperties _ (searchStart gpu kernel)
      (Nat.div_mul_cancel h).symm⟩

theorem getOptimalBlockSize_early_exit_witness :
    scenarioDevice.warpSize ∣ min2 (boundedKernel 992).kernelProperties.maxThreadsPerBlock
      scenarioDevice.maxThreadsPerMultiProcessor ∧
    (∀ b, b * getMaxResidentBlocksPerSM scenarioDevice (boundedKernel 992).kernelProperties b
      ≤ scenarioDevice.maxThreadsPerMultiProcessor) ∧
    ∃ r, getOptimalBlockSize scenarioDevice (boundedKernel 992)
          (min2 (boundedKernel 992).kernelProperties.maxThreadsPerBlock
            scenarioDevice.maxThreadsPerMultiProcessor / scenarioDevice.warpSize + 1) = some r ∧
      getOptimalBlockSizeNoExit scenarioDevice (boundedKernel 992)
          (min2 (boundedKernel 992).kernelProperties.maxThreadsPerBlock
            scenarioDevice.maxThreadsPerMultiProcessor / scenarioDevice.warpSize + 1) = some r :=
  ⟨by decide, getOptimalBlockSize_early_exit scenarioDevice (boundedKernel 992) (by decide)⟩

/-! ## The block-size search from a size that is not a multiple of the warp size -/

/-- A search never returns from a state with a property that every pass through the loop
preserves without leaving the loop. -/
theorem searchLoop_none (d : cudaDeviceProp) (k : cudaFuncAttributes) (P : SearchState → Prop)
    (hP : ∀ s, P s → ∃ s', searchStep d k s = .next s' ∧ P s') :
    ∀ (fuel : Nat) (s : SearchState), P s → searchLoop d k fuel s = none := by
  intro fuel
  induction fuel with
  | zero => intro s _; rfl
  | succ fuel ih =>
    intro s hs
    obtain ⟨s', h1, h2⟩ := hP s hs
    rw [searchLoop_succ_next d k fuel s s' h1]
    exact ih s' h2

/-- Subtracting 32 with wrap-around keeps the remainder modulo 32, since 32 divides `2 ^ 64`. -/
theorem wrapSub_mod_32 (b : Nat) : wrapSub b 32 % 32 = b % 32 := by
  unfold wrapSub SIZE_MOD
  split <;> omega

/-- A block size that leaves 8 modulo 32 never fills the scenario device: at most 8 blocks are
resident and `2048` is not such a multiple of the block size. -/
theorem scenario_not_full (k : cudaFuncAttributes) (b : Nat) (hb : b % 32 = 8) :
    blockOccupancy scenarioDevice k b ≠ 2048 := by
  have h8 : getMaxResidentBlocksPerSM scenarioDevice k b ≤ 8 := by
    simp only [getMaxResidentBlocksPerSM, min3, getHardwareLimit, scenarioDevice]
    omega
  unfold blockOccupancy
  simp only
  generalize getMaxResidentBlocksPerSM scenarioDevice k b = r at h8
  intro h
  interval_cases r <;> omega

/-- C18 (failing input): the scenario device and a kernel compiled for at most 1000 threads per
block.  All limits are positive, and the search is still running after any number of loop tests:
the block size keeps the remainder 8 modulo 32, so it is never 0, and no such block size fills
the multiprocessor, so the early exit is never taken. -/
theorem getOptimalBlockSize_runs_forever :
    0 < scenarioDevice.maxThreadsPerMultiProcessor ∧ 0 < scenarioDevice.warpSize ∧
    0 < (boundedKernel 1000).kernelProperties.maxThreadsPerBlock ∧
    ∀ fuel, getOptimalBlockSize scenarioDevice (boundedKernel 1000) fuel = none := by
  refine ⟨by decide, by decide, by decide, fun fuel => ?_⟩
  apply searchLoop_none scenarioDevice (boundedKernel 1000).kernelProperties
    (fun s => s.blocksize % 32 = 8 ∧ s.highestOcc ≠ 2048)
  · rintro s ⟨hb, hho⟩
    have hz : s.blocksize ≠ 0 := by intro h0; rw [h0] at hb; omega
    have hocc := scenario_not_full (boundedKernel 1000).kernelProperties s.blocksize hb
    rcases Nat.lt_or_ge s.highestOcc
        (blockOccupancy scenarioDevice (boundedKernel 1000).kernelProperties s.blocksize)
      with hgt | hle
    · exact ⟨_, searchStep_gt_next _ _ s hz hgt hocc,
        by show wrapSub s.blocksize 32 % 32 = 8; rw [wrapSub_mod_32]; exact hb, hocc⟩
    · exact ⟨_, searchStep_le_next _ _ s hz hle hho,
        by show wrapSub s.blocksize 32 % 32 = 8; rw [wrapSub_mod_32]; exact hb, hho⟩
  · exact ⟨by decide, by decide⟩

/-- No block size is resident on the scenario device for a kernel whose blocks need more shared
memory than a multiprocessor has. -/
theorem hungryKernel_occupancy (b : Nat) :
    blockOccupancy scenarioDevice hungryKernel.kernelProperties b = 0 := by
  have h0 : getMaxResidentBlocksPerSM scenarioDevice hungryKernel.kernelProperties b = 0 := by
    simp only [getMaxResidentBlocksPerSM, min3, getSharedMemLimit, scenarioDevice, hungryKernel]
    rw [if_neg (by decide), show (49152 : Nat) / 65536 = 0 from rfl]
    omega
  unfold blockOccupancy
  simp only [h0, Nat.mul_zero]

/-- C17 (failing input): the scenario device and a kernel compiled for at most 1000 threads per
block that needs more shared memory than a multiprocessor has.  No candidate has a positive
occupancy, yet the search does not return 0: it is still running after any number of loop
tests. -/
theorem getOptimalBlockSize_zero_not_returned :
    ∀ fuel, getOptimalBlockSize scenarioDevice hungryKernel fuel = none ∧
      ∀ b ∈ testedBlockSizes scenarioDevice hungryKernel fuel,
        ¬ 0 < b * getMaxResidentBlocksPerSM scenarioDevice hungryKernel.kernelProperties b := by
  intro fuel
  constructor
  · apply searchLoop_none scenarioDevice hungryKernel.kernelProperties
      (fun s => s.blocksize % 32 = 8 ∧ s.highestOcc = 0)
    · rintro s ⟨hb, hho⟩
      have hz : s.blocksize ≠ 0 := by intro h0; rw [h0] at hb; omega
      have hle : blockOccupancy scenarioDevice hungryKernel.kernelProperties s.blocksize
          ≤ s.highestOcc := by rw [hungryKernel_occupancy]; exact Nat.zero_le _
      have hne : s.highestOcc ≠ scenarioDevice.maxThreadsPerMultiProcessor := by
        rw [hho]; decide
      exact ⟨_, searchStep_le_next _ _ s hz hle hne,
        by show wrapSub s.blocksize 32 % 32 = 8; rw [wrapSub_mod_32]; exact hb, hho⟩
    · exact ⟨by decide, rfl⟩
  · intro b _ hpos
    have h0 := hungryKernel_occupancy b
    unfold blockOccupancy at h0
    simp only at h0
    omega

/-- C19 (failing input): the scenario device and a kernel compiled for at most 1000 threads per
block.  The 32nd candidate the search evaluates is 8, below the warp size of 32, and the 33rd is
`2 ^ 64 - 24`, above the start size of 1000. -/
theorem getOptimalBlockSize_candidate_out_of_range :
    0 < scenarioDevice.maxThreadsPerMultiProcessor ∧ 0 < scenarioDevice.warpSize ∧
    0 < (boundedKernel 1000).kernelProperties.maxThreadsPerBlock ∧
    8 ∈ testedBlockSizes scenarioDevice (boundedKernel 1000) 32 ∧
    8 < scenarioDevice.warpSize ∧
    18446744073709551592 ∈ testedBlockSizes scenarioDevice (boundedKernel 1000) 33 ∧
    min2 (boundedKernel 1000).kernelProperties.maxThreadsPerBlock
        scenarioDevice.maxThreadsPerMultiProcessor < 18446744073709551592 := by
  decide

/-! ## The block-size search: searches that return -/

/-- The pass of lines 67-88 in terms of the decrement it computes. -/
theorem reduceBlocksToFitOnGPU_eq (u L : Nat) (p : LaunchParameters) :
    reduceBlocksToFitOnGPU u L p =
      if L < p.blocksPerGrid * u then
        { p with blocksPerGrid :=
            toSizeT ((p.blocksPerGrid : Int) - (shrinkDecrement u L p.blocksPerGrid : Int)) }
      else p := rfl

/-- `limitUsage` is the three passes in the order of the code, applied to the candidate. -/
theorem limitUsage_eq_shrinkInOrder (d : cudaDeviceProp) (k : cudaFuncAttributes)
    (lParams : LaunchParameters) (limits : KernelLimits) :
    limitUsage d k lParams limits =
      shrinkInOrder codeOrder (getBlockUsageStats d k lParams.threadsPerBlock) limits
        { threadsPerBlock := lParams.threadsPerBlock,
          blocksPerGrid := blocksPhysical d k lParams limits } := rfl

/-- One pass whose deficit fits the `int` of line 79, in closed form: the grid is capped at
`L / u`, and left alone when the block uses nothing of the resource. -/
theorem reduceBlocksToFitOnGPU_closed (u L : Nat) (p : LaunchParameters)
    (hd : p.blocksPerGrid * u - L < 2 ^ 31) (hb : p.blocksPerGrid < SIZE_MOD) :
    reduceBlocksToFitOnGPU u L p =
      { p with blocksPerGrid := if u = 0 then p.blocksPerGrid else min p.blocksPerGrid (L / u) } := by
  rcases Nat.eq_zero_or_pos u with h0 | hpos
  · rw [if_pos h0, reduceBlocksToFitOnGPU_of_le u L p (by rw [h0]; simp)]
  · rw [if_neg (Nat.pos_iff_ne_zero.mp hpos)]
    rcases Nat.lt_or_ge L (p.blocksPerGrid * u) with h | h
    · rw [reduceBlocksToFitOnGPU_of_gt u L p h hd hb]
      have hq : L / u < p.blocksPerGrid := Nat.div_lt_of_lt_mul (by rwa [Nat.mul_comm] at h)
      rw [Nat.min_eq_right hq.le]
    · rw [reduceBlocksToFitOnGPU_of_le u L p h]
      have hq : p.blocksPerGrid ≤ L / u := (Nat.le_div_iff_mul_le hpos).mpr h
      rw [Nat.min_eq_left hq]

/-- The cap one pass puts on a grid of `b` blocks when its deficit fits the `int`. -/
theorem capBlocks_comm (u1 L1 u2 L2 b : Nat) :
    (if u2 = 0 then (if u1 = 0 then b else min b (L1 / u1))
      else min (if u1 = 0 then b else min b (L1 / u1)) (L2 / u2))
    = (if u1 = 0 then (if u2 = 0 then b else min b (L2 / u2))
      else min (if u2 = 0 then b else min b (L2 / u2)) (L1 / u1)) := by
  split <;> split <;> omega

/-- Passes whose deficits all fit the `int` of line 79 cap the grid one after the other. -/
theorem shrinkInOrder_fits (usage : BlockUsage) (limits : KernelLimits) :
    ∀ (order : List Resource) (p : LaunchParameters), p.blocksPerGrid < SIZE_MOD →
      (∀ r ∈ order, p.blocksPerGrid * r.usage usage - r.cap limits < 2 ^ 31) →
      shrinkInOrder order usage limits p =
        { p with blocksPerGrid := (order.foldl
            (fun b r => if r.usage usage = 0 then b else min b (r.cap limits / r.usage usage))
            p.blocksPerGrid) } := by
  intro order
  induction order with
  | nil => intro p _ _; rfl
  | cons r rest ih =>
    intro p hb hfit
    have h1 := reduceBlocksToFitOnGPU_closed (r.usage usage) (r.cap limits) p
      (hfit r (List.mem_cons_self _ _)) hb
    have hle : (if r.usage usage = 0 then p.blocksPerGrid
        else min p.blocksPerGrid (r.cap limits / r.usage usage)) ≤ p.blocksPerGrid := by
      split
      · exact le_refl _
      · exact Nat.min_le_left _ _
    show shrinkInOrder rest usage limits
        (reduceBlocksToFitOnGPU (r.usage usage) (r.cap limits) p) = _
    rw [h1, ih _ (lt_of_le_of_lt hle hb)]
    · rfl
    · intro r' hr'
      have h2 := hfit r' (List.mem_cons_of_mem _ hr')
      have h3 := Nat.mul_le_mul_right (r'.usage usage) hle
      show (if r.usage usage = 0 then p.blocksPerGrid
        else min p.blocksPerGrid (r.cap limits / r.usage usage)) * r'.usage usage
          - r'.cap limits < 2 ^ 31
      omega

/-- When every deficit fits the `int` of line 79 the order of the passes is immaterial. -/
theorem shrinkInOrder_perm (usage : BlockUsage) (limits : KernelLimits)
    (order order' : List Resource) (hperm : order.Perm order') (p : LaunchParameters)
    (hb : p.blocksPerGrid < SIZE_MOD)
    (hfit : ∀ r ∈ order, p.blocksPerGrid * r.usage usage - r.cap limits < 2 ^ 31) :
    shrinkInOrder order usage limits p = shrinkInOrder order' usage limits p := by
  rw [shrinkInOrder_fits usage limits order p hb hfit,
    shrinkInOrder_fits usage limits order' p hb (fun r hr => hfit r (hperm.mem_iff.mpr hr))]
  congr 1
  exact hperm.foldl_eq' (fun x _ y _ z => capBlocks_comm _ _ _ _ _) _

/-- Admission in closed form when no deficit outgrows the `int` of line 79 and every per-block
usage is positive: the candidate capped by the three quotients `cap / usage`. -/
theorem limitUsage_closed (d : cudaDeviceProp) (k : cudaFuncAttributes)
    (lParams : LaunchParameters) (limits : KernelLimits)
    (hb : blocksPhysical d k lParams limits < SIZE_MOD)
    (hfit : ∀ r ∈ codeOrder, blocksPhysical d k lParams limits
      * r.usage (getBlockUsageStats d k lParams.threadsPerBlock) - r.cap limits < 2 ^ 31)
    (hpos : ∀ r ∈ codeOrder, 0 < r.usage (getBlockUsageStats d k lParams.threadsPerBlock)) :
    (limitUsage d k lParams limits).blocksPerGrid =
      min (min (min (blocksPhysical d k lParams limits)
        (limits.sharedMem / (getBlockUsageStats d k lParams.threadsPerBlock).sharedMem))
        (limits.numThreads / (getBlockUsageStats d k lParams.threadsPerBlock).numThreads))
        (limits.numRegisters / (getBlockUsageStats d k lParams.threadsPerBlock).numRegisters) := by
  have hs : (getBlockUsageStats d k lParams.threadsPerBlock).sharedMem ≠ 0 :=
    Nat.pos_iff_ne_zero.mp (hpos .sharedMem (by decide))
  have ht : (getBlockUsageStats d k lParams.threadsPerBlock).numThreads ≠ 0 :=
    Nat.pos_iff_ne_zero.mp (hpos .threads (by decide))
  have hr : (getBlockUsageStats d k lParams.threadsPerBlock).numRegisters ≠ 0 :=
    Nat.pos_iff_ne_zero.mp (hpos .registers (by decide))
  rw [limitUsage_eq_shrinkInOrder, shrinkInOrder_fits _ _ codeOrder _ hb hfit]
  simp only [codeOrder, List.foldl, Resource.usage, Resource.cap, if_neg hs, if_neg ht, if_neg hr]

/-- Admission does not over-shrink when no deficit outgrows the `int` of line 79: every grid
that is within the request, the resident blocks, the block cap and the three aggregate caps is
at most the returned grid. -/
theorem limitUsage_largest_of_fits (d : cudaDeviceProp) (k : cudaFuncAttributes)
    (lParams : LaunchParameters) (limits : KernelLimits)
    (hb : blocksPhysical d k lParams limits < SIZE_MOD)
    (hfit : ∀ r ∈ codeOrder, blocksPhysical d k lParams limits
      * r.usage (getBlockUsageStats d k lParams.threadsPerBlock) - r.cap limits < 2 ^ 31)
    (hpos : ∀ r ∈ codeOrder, 0 < r.usage (getBlockUsageStats d k lParams.threadsPerBlock))
    (g : Nat) (hg : g ≤ blocksPhysical d k lParams limits)
    (hs : g * (getBlockUsageStats d k lParams.threadsPerBlock).sharedMem ≤ limits.sharedMem)
    (ht : g * (getBlockUsageStats d k lParams.threadsPerBlock).numThreads ≤ limits.numThreads)
    (hr : g * (getBlockUsageStats d k lParams.threadsPerBlock).numRegisters
      ≤ limits.numRegisters) :
    g ≤ (limitUsage d k lParams limits).blocksPerGrid := by
  rw [limitUsage_closed d k lParams limits hb hfit hpos]
  have a1 := (Nat.le_div_iff_mul_le (hpos .sharedMem (by decide))).mpr hs
  have a2 := (Nat.le_div_iff_mul_le (hpos .threads (by decide))).mpr ht
  have a3 := (Nat.le_div_iff_mul_le (hpos .registers (by decide))).mpr hr
  simp only [Resource.usage] at a1 a2 a3
  omega

/-- Admission is monotone in the budget when no deficit of either call outgrows the `int` of
line 79. -/
theorem limitUsage_mono_of_fits (d : cudaDeviceProp) (k : cudaFuncAttributes)
    (threads blocks1 blocks2 : Nat) (limits1 limits2 : KernelLimits)
    (hb1 : blocksPhysical d k ⟨threads, blocks1⟩ limits1 < SIZE_MOD)
    (hb2 : blocksPhysical d k ⟨threads, blocks2⟩ limits2 < SIZE_MOD)
    (hfit1 : ∀ r ∈ codeOrder, blocksPhysical d k ⟨threads, blocks1⟩ limits1
      * r.usage (getBlockUsageStats d k threads) - r.cap limits1 < 2 ^ 31)
    (hfit2 : ∀ r ∈ codeOrder, blocksPhysical d k ⟨threads, blocks2⟩ limits2
      * r.usage (getBlockUsageStats d k threads) - r.cap limits2 < 2 ^ 31)
    (hpos : ∀ r ∈ codeOrder, 0 < r.usage (getBlockUsageStats d k threads))
    (hreq : blocks1 ≤ blocks2) (hn : limits1.numBlocks ≤ limits2.numBlocks)
    (hs : limits1.sharedMem ≤ limits2.sharedMem) (ht : limits1.numThreads ≤ limits2.numThreads)
    (hr : limits1.numRegisters ≤ limits2.numRegisters) :
    (limitUsage d k ⟨threads, blocks1⟩ limits1).blocksPerGrid
      ≤ (limitUsage d k ⟨threads, blocks2⟩ limits2).blocksPerGrid := by
  rw [limitUsage_closed d k _ limits1 hb1 hfit1 hpos,
    limitUsage_closed d k _ limits2 hb2 hfit2 hpos]
  have c : blocksPhysical d k ⟨threads, blocks1⟩ limits1
      ≤ blocksPhysical d k ⟨threads, blocks2⟩ limits2 := by
    simp only [blocksPhysical, min3]
    omega
  have a1 := Nat.div_le_div_right (c := (getBlockUsageStats d k threads).sharedMem) hs
  have a2 := Nat.div_le_div_right (c := (getBlockUsageStats d k threads).numThreads) ht
  have a3 := Nat.div_le_div_right (c := (getBlockUsageStats d k threads).numRegisters) hr
  simp only at a1 a2 a3 ⊢
  omega

/-- C21: there are a block usage, a Resource Limit Set in which the shared-memory cap and the
thread cap both bind, and a candidate grid for which the passes in the order (threads, shared
memory, registers) leave another grid size than in the order of the code. -/
theorem shrink_order_matters :
    ∃ (usage : BlockUsage) (limits : KernelLimits) (candidate : Nat) (order : List Resource),
      order.Perm codeOrder ∧
      limits.sharedMem < candidate * usage.sharedMem ∧
      limits.numThreads < candidate * usage.numThreads ∧
      (shrinkInOrder order usage limits
          { threadsPerBlock := usage.numThreads, blocksPerGrid := candidate }).blocksPerGrid
        ≠ (shrinkInOrder codeOrder usage limits
          { threadsPerBlock := usage.numThreads, blocksPerGrid := candidate }).blocksPerGrid :=
  ⟨getBlockUsageStats hugeSharedDevice (bigSharedKernel 4) 256, twoCapLimits, 3,
    [.threads, .sharedMem, .registers], List.Perm.swap _ _ _, by decide, by decide, by decide⟩

/-- C23 (failing input): one pass over two blocks of 3 GiB under a limit of 1 GiB.  The usage
exceeds the limit, and after the pass the one remaining block still does. -/
theorem reduceBlocksToFitOnGPU_limit_exceeded :
    0 < 3 * 2 ^ 30 ∧ 2 ^ 30 < 2 * (3 * 2 ^ 30) ∧
    (reduceBlocksToFitOnGPU (3 * 2 ^ 30) (2 ^ 30) ⟨256, 2⟩).blocksPerGrid = 1 ∧
    ¬ (reduceBlocksToFitOnGPU (3 * 2 ^ 30) (2 ^ 30) ⟨256, 2⟩).blocksPerGrid * (3 * 2 ^ 30)
      ≤ 2 ^ 30 := by
  decide

/-- C24 (failing input): one pass over three blocks of 1 GiB under a limit of 1 GiB.  The
deficit `2 ^ 31` reads back from the `int` of line 79 as `-2 ^ 31`; the decrement stored in the
`size_t` of line 82 is `2 ^ 64 - 2`, more than the three blocks, and the subtraction of line 84
wraps to five blocks. -/
theorem shrinkDecrement_above_blocks :
    0 < 2 ^ 30 ∧ 2 ^ 30 < 3 * 2 ^ 30 ∧
    shrinkDecrement (2 ^ 30) (2 ^ 30) 3 = 2 ^ 64 - 2 ∧
    3 < shrinkDecrement (2 ^ 30) (2 ^ 30) 3 ∧
    (reduceBlocksToFitOnGPU (2 ^ 30) (2 ^ 30) ⟨256, 3⟩).blocksPerGrid = 5 := by
  decide

/-- C25 (failing input): one pass over one block of 5 GiB under a limit of 1 GiB leaves one
block, where `min(b, floor(L / u))` is 0. -/
theorem reduceBlocksToFitOnGPU_not_min :
    0 < 5 * 2 ^ 30 ∧
    (reduceBlocksToFitOnGPU (5 * 2 ^ 30) (2 ^ 30) ⟨256, 1⟩).blocksPerGrid = 1 ∧
    min 1 (2 ^ 30 / (5 * 2 ^ 30)) = 0 := by
  decide

/-- C26 (failing input): four blocks of 2 GiB of shared memory under a cap of 1 GiB.  The deficit
of 7 GiB reads back from the `int` of line 79 as `-2 ^ 30`, nothing is trimmed, and the returned
grid of four blocks is not a grid that meets the shared-memory cap, let alone the largest. -/
theorem limitUsage_not_largest :
    0 < (getBlockUsageStats bigSharedDevice (bigSharedKernel 2) 256).sharedMem ∧
    0 < (getBlockUsageStats bigSharedDevice (bigSharedKernel 2) 256).numThreads ∧
    0 < (getBlockUsageStats bigSharedDevice (bigSharedKernel 2) 256).numRegisters ∧
    (limitUsage bigSharedDevice (bigSharedKernel 2) ⟨256, 4⟩ (oneGiBLimits 4)).blocksPerGrid = 4 ∧
    ¬ (limitUsage bigSharedDevice (bigSharedKernel 2) ⟨256, 4⟩ (oneGiBLimits 4)).blocksPerGrid
        * (getBlockUsageStats bigSharedDevice (bigSharedKernel 2) 256).sharedMem
      ≤ (oneGiBLimits 4).sharedMem := by
  decide

/-- C27 (failing input): eight blocks of 1 GiB of shared memory.  Under a shared-memory cap of
3 GiB the deficit of 5 GiB is cut to 1 GiB by the `int` of line 79 and seven blocks are
returned; under the larger cap of 6.5 GiB, all else equal, six blocks are returned. -/
theorem limitUsage_not_monotone :
    (sharedLimits 8 (3 * 2 ^ 30)).numBlocks ≤ (sharedLimits 8 (6 * 2 ^ 30 + 2 ^ 29)).numBlocks ∧
    (sharedLimits 8 (3 * 2 ^ 30)).sharedMem ≤ (sharedLimits 8 (6 * 2 ^ 30 + 2 ^ 29)).sharedMem ∧
    (sharedLimits 8 (3 * 2 ^ 30)).numThreads
      ≤ (sharedLimits 8 (6 * 2 ^ 30 + 2 ^ 29)).numThreads ∧
    (sharedLimits 8 (3 * 2 ^ 30)).numRegisters
      ≤ (sharedLimits 8 (6 * 2 ^ 30 + 2 ^ 29)).numRegisters ∧
    (limitUsage bigSharedDevice (bigSharedKernel 1) ⟨256, 8⟩
      (sharedLimits 8 (3 * 2 ^ 30))).blocksPerGrid = 7 ∧
    (limitUsage bigSharedDevice (bigSharedKernel 1) ⟨256, 8⟩
      (sharedLimits 8 (6 * 2 ^ 30 + 2 ^ 29))).blocksPerGrid = 6 := by
  decide

/-! ## Compute occupancy and the grid size -/

/-- C28: `getOccupancyForKernel` does not read the grid size: two launch configurations of one
kernel with the same threads per block give the same compute occupancy, whatever their blocks
per grid. -/
theorem getOccupancyForKernel_grid_independent (gpu : cudaDeviceProp)
    (kernelProps : cudaFuncAttributes) (threads blocks1 blocks2 footprint : Nat) :
    getOccupancyForKernel gpu
        { kernelProperties := kernelProps, launchParams := ⟨threads, blocks1⟩,
          memoryConsumption := footprint }
      = getOccupancyForKernel gpu
        { kernelProperties := kernelProps, launchParams := ⟨threads, blocks2⟩,
          memoryConsumption := footprint } := rfl

/-! ## The block-size search from a multiple of the warp size: bounds -/

/-- From a multiple `q × warpSize` of the warp size the loop body runs at most `q` times. -/
theorem searchTested_aligned_length (d : cudaDeviceProp) (k : cudaFuncAttributes) :
    ∀ (q : Nat) (s : SearchState), s.blocksize = q * d.warpSize →
      (searchTested d k (q + 1) s).length ≤ q := by
  intro q
  induction q with
  | zero =>
    intro s hb
    have hz : s.blocksize = 0 := by rw [hb, Nat.zero_mul]
    rw [searchTested_succ_done d k 0 s _ (searchStep_zero d k s hz), if_pos hz]
    exact Nat.le_refl _
  | succ q ih =>
    intro s hb
    by_cases hz : s.blocksize = 0
    · rw [searchTested_succ_done d k _ s _ (searchStep_zero d k s hz), if_pos hz]
      exact Nat.zero_le _
    · rcases searchStep_cases d k s hz with ⟨r, hs⟩ | ⟨mb, ho, hs⟩
      · rw [searchTested_succ_done d k _ s _ hs, if_neg hz]
        exact Nat.succ_le_succ (Nat.zero_le _)
      · rw [searchTested_succ_next d k _ s _ hs]
        have hw : wrapSub s.blocksize d.warpSize = q * d.warpSize := by
          rw [hb]; exact wrapSub_succ_mul q d.warpSize
        rw [hw]
        exact Nat.succ_le_succ (ih _ rfl)

/-- C29: when the start size `min(maxThreadsPerBlock, maxThreadsPerMultiProcessor)` is a multiple
of the positive warp size, the search returns within `start / warpSize + 1` loop tests, its body
runs at most `start / warpSize` times, and the value returned is 0 or a multiple of the warp size
between the warp size and the start size. -/
theorem getOptimalBlockSize_aligned (gpu : cudaDeviceProp) (kernel : AbstractElasticKernel)
    (_hw : 0 < gpu.warpSize)
    (h : gpu.warpSize
      ∣ min2 kernel.kernelProperties.maxThreadsPerBlock gpu.maxThreadsPerMultiProcessor) :
    ∃ r, getOptimalBlockSize gpu kernel
          (min2 kernel.kernelProperties.maxThreadsPerBlock gpu.maxThreadsPerMultiProcessor
            / gpu.warpSize + 1) = some r ∧
      (testedBlockSizes gpu kernel
          (min2 kernel.kernelProperties.maxThreadsPerBlock gpu.maxThreadsPerMultiProcessor
            / gpu.warpSize + 1)).length
        ≤ min2 kernel.kernelProperties.maxThreadsPerBlock gpu.maxThreadsPerMultiProcessor
            / gpu.warpSize ∧
      (r = 0 ∨ (gpu.warpSize ∣ r ∧ gpu.warpSize ≤ r ∧
        r ≤ min2 kernel.kernelProperties.maxThreadsPerBlock gpu.maxThreadsPerMultiProcessor)) := by
  have hq : (searchStart gpu kernel).blocksize
      = min2 kernel.kernelProperties.maxThreadsPerBlock gpu.maxThreadsPerMultiProcessor
          / gpu.warpSize * gpu.warpSize := (Nat.div_mul_cancel h).symm
  obtain ⟨r, hr, _⟩ := searchLoop_aligned gpu kernel.kernelProperties _ _ hq
  refine ⟨r, hr, searchTested_aligned_length gpu kernel.kernelProperties _ _ hq, ?_⟩
  rcases searchLoop_spec gpu kernel.kernelProperties _ _ r hr with
    ⟨h0, _⟩ | ⟨pre, post, hT, _, _, _⟩
  · exact Or.inl h0
  · right
    have hmem : r ∈ searchTested gpu kernel.kernelProperties
        (min2 kernel.kernelProperties.maxThreadsPerBlock gpu.maxThreadsPerMultiProcessor
          / gpu.warpSize + 1) (searchStart gpu kernel) := by
      rw [hT]; simp
    exact searchTested_aligned gpu kernel.kernelProperties _ _ hq r hmem

theorem getOptimalBlockSize_aligned_witness :
    0 < scenarioDevice.warpSize ∧
    scenarioDevice.warpSize ∣ min2 (boundedKernel 992).kernelProperties.maxThreadsPerBlock
      scenarioDevice.maxThreadsPerMultiProcessor ∧
    ∃ r, getOptimalBlockSize scenarioDevice (boundedKernel 992)
          (min2 (boundedKernel 992).kernelProperties.maxThreadsPerBlock
            scenarioDevice.maxThreadsPerMultiProcessor / scenarioDevice.warpSize + 1) = some r ∧
      (testedBlockSizes scenarioDevice (boundedKernel 992)
          (min2 (boundedKernel 992).kernelProperties.maxThreadsPerBlock
            scenarioDevice.maxThreadsPerMultiProcessor / scenarioDevice.warpSize + 1)).length
        ≤ min2 (boundedKernel 992).kernelProperties.maxThreadsPerBlock
            scenarioDevice.maxThreadsPerMultiProcessor / scenarioDevice.warpSize ∧
      (r = 0 ∨ (scenarioDevice.warpSize ∣ r ∧ scenarioDevice.warpSize ≤ r ∧
        r ≤ min2 (boundedKernel 992).kernelProperties.maxThreadsPerBlock
          scenarioDevice.maxThreadsPerMultiProcessor)) :=
  ⟨by decide, by decide,
    getOptimalBlockSize_aligned scenarioDevice (boundedKernel 992) (by decide) (by decide)⟩

/-! ## Re-tuning a pool to the optimal block size -/

theorem blockOccupancy_zero (d : cudaDeviceProp) (k : cudaFuncAttributes) :
    blockOccupancy d k 0 = 0 := by
  unfold blockOccupancy
  simp only [Nat.zero_mul]

/-- From a multiple `q × warpSize` of the warp size, a search that returns either keeps the block
size it started with, no multiple of the warp size up to the start having an occupancy above the
one it started with, or returns a block size, at most the start, whose occupancy is at least that
of every multiple of the warp size up to the start. -/
theorem searchLoop_aligned_best (d : cudaDeviceProp) (k : cudaFuncAttributes) :
    ∀ (fuel q : Nat) (s : SearchState) (r : Nat), s.blocksize = q * d.warpSize →
      searchLoop d k fuel s = some r →
      (r = s.maxBLockSize ∧
        ∀ j, j ≤ q → blockOccupancy d k (j * d.warpSize) ≤ s.highestOcc) ∨
      (s.highestOcc < blockOccupancy d k r ∧ r ≤ s.blocksize ∧
        ∀ j, j ≤ q → blockOccupancy d k (j * d.warpSize) ≤ blockOccupancy d k r) := by
  intro fuel
  induction fuel with
  | zero => intro q s r _ h; simp [searchLoop] at h
  | succ fuel ih =>
    intro q s r hb h
    by_cases hz : s.blocksize = 0
    · rw [searchLoop_succ_done d k fuel s _ (searchStep_zero d k s hz)] at h
      left
      refine ⟨(Option.some.inj h).symm, ?_⟩
      intro j hj
      have h0 : j * d.warpSize = 0 := by
        have := Nat.mul_le_mul_right d.warpSize hj
        rw [← hb, hz] at this
        exact Nat.le_zero.mp this
      rw [h0, blockOccupancy_zero]
      exact Nat.zero_le _
    · obtain ⟨q', rfl⟩ : ∃ q', q = q' + 1 := by
        rcases q with _ | q'
        · rw [Nat.zero_mul] at hb; exact absurd hb hz
        · exact ⟨q', rfl⟩
      have hw : wrapSub s.blocksize d.warpSize = q' * d.warpSize := by
        rw [hb]; exact wrapSub_succ_mul q' d.warpSize
      have hlast : ∀ j, j ≤ q' + 1 → j ≤ q' ∨ j * d.warpSize = s.blocksize := by
        intro j hj
        rcases Nat.lt_or_ge j (q' + 1) with h1 | h1
        · exact Or.inl (Nat.lt_succ_iff.mp h1)
        · right; rw [hb, Nat.le_antisymm hj h1]
      have hdown : q' * d.warpSize ≤ s.blocksize := by
        rw [hb]; exact Nat.mul_le_mul_right _ (Nat.le_succ q')
      rcases Nat.lt_or_ge s.highestOcc (blockOccupancy d k s.blocksize) with hgt | hle
      · by_cases he : blockOccupancy d k s.blocksize = d.maxThreadsPerMultiProcessor
        · rw [searchLoop_succ_done d k fuel s _ (searchStep_gt_exit d k s hz hgt he)] at h
          have hr : r = s.blocksize := (Option.some.inj h).symm
          right
          rw [hr]
          exact ⟨hgt, le_refl _, fun j _ => by rw [he]; exact blockOccupancy_le d k _⟩
        · rw [searchLoop_succ_next d k fuel s _ (searchStep_gt_next d k s hz hgt he), hw] at h
          right
          rcases ih q' _ r rfl h with ⟨hr, hall⟩ | ⟨hlt, hrle, hall⟩
          · have hr' : r = s.blocksize := hr
            rw [hr']
            refine ⟨hgt, le_refl _, ?_⟩
            intro j hj
            rcases hlast j hj with h1 | h1
            · exact hall j h1
            · rw [h1]
          · have hlt' : blockOccupancy d k s.blocksize < blockOccupancy d k r := hlt
            have hrle' : r ≤ q' * d.warpSize := hrle
            refine ⟨lt_trans hgt hlt', le_trans hrle' hdown, ?_⟩
            intro j hj
            rcases hlast j hj with h1 | h1
            · exact hall j h1
            · rw [h1]; exact hlt'.le
      · by_cases he : s.highestOcc = d.maxThreadsPerMultiProcessor
        · rw [searchLoop_succ_done d k fuel s _ (searchStep_le_exit d k s hz hle he)] at h
          left
          exact ⟨(Option.some.inj h).symm, fun j _ => by rw [he]; exact blockOccupancy_le d k _⟩
        · rw [searchLoop_succ_next d k fuel s _ (searchStep_le_next d k s hz hle he), hw] at h
          rcases ih q' _ r rfl h with ⟨hr, hall⟩ | ⟨hlt, hrle, hall⟩
          · left
            refine ⟨hr, ?_⟩
            intro j hj
            rcases hlast j hj with h1 | h1
            · exact hall j h1
            · rw [h1]; exact hle
          · right
            have hlt' : s.highestOcc < blockOccupancy d k r := hlt
            have hrle' : r ≤ q' * d.warpSize := hrle
            refine ⟨hlt', le_trans hrle' hdown, ?_⟩
            intro j hj
            rcases hlast j hj with h1 | h1
            · exact hall j h1
            · rw [h1]; exact le_trans hle hlt'.le

/-- A kernel whose start size and evaluated block size `threadNum` are multiples of the warp size
has at the block size `getOptimalBlockSize` returns at least the resident threads it has at its
registered block size. -/
theorem occupiedThreads_withBlockSize (gpu : cudaDeviceProp) (kernel : AbstractElasticKernel)
    (fuel r : Nat) (h : getOptimalBlockSize gpu kernel fuel = some r)
    (ha : gpu.warpSize
      ∣ min2 kernel.kernelProperties.maxThreadsPerBlock gpu.maxThreadsPerMultiProcessor)
    (ht : gpu.warpSize ∣ threadNum gpu kernel) :
    occupiedThreads gpu kernel ≤ occupiedThreads gpu (withBlockSize kernel r) := by
  have hq : (searchStart gpu kernel).blocksize
      = min2 kernel.kernelProperties.maxThreadsPerBlock gpu.maxThreadsPerMultiProcessor
          / gpu.warpSize * gpu.warpSize := (Nat.div_mul_cancel ha).symm
  have htle : threadNum gpu kernel
      ≤ min2 kernel.kernelProperties.maxThreadsPerBlock gpu.maxThreadsPerMultiProcessor := by
    simp only [threadNum, min3, min2]
    omega
  have hj : threadNum gpu kernel / gpu.warpSize
      ≤ min2 kernel.kernelProperties.maxThreadsPerBlock gpu.maxThreadsPerMultiProcessor
          / gpu.warpSize := Nat.div_le_div_right htle
  have ht' : threadNum gpu kernel / gpu.warpSize * gpu.warpSize = threadNum gpu kernel :=
    Nat.div_mul_cancel ht
  have hreg : occupiedThreads gpu kernel
      = blockOccupancy gpu kernel.kernelProperties (threadNum gpu kernel) := rfl
  rw [hreg]
  rcases searchLoop_aligned_best gpu kernel.kernelProperties fuel _ _ r hq h with
    ⟨_, hall⟩ | ⟨_, hrle, hall⟩
  · have := hall _ hj
    rw [ht'] at this
    exact le_trans this (Nat.zero_le _)
  · have hrle' : r
        ≤ min2 kernel.kernelProperties.maxThreadsPerBlock gpu.maxThreadsPerMultiProcessor := hrle
    have hnum : threadNum gpu (withBlockSize kernel r) = r := by
      simp only [threadNum, min3, min2, withBlockSize] at hrle' ⊢
      omega
    have hopt : occupiedThreads gpu (withBlockSize kernel r)
        = blockOccupancy gpu kernel.kernelProperties (threadNum gpu (withBlockSize kernel r)) :=
      rfl
    rw [hopt, hnum]
    have := hall _ hj
    rw [ht'] at this
    exact this

theorem getOccupancyForKernel_withBlockSize (gpu : cudaDeviceProp)
    (kernel : AbstractElasticKernel) (fuel r : Nat)
    (h : getOptimalBlockSize gpu kernel fuel = some r)
    (ha : gpu.warpSize
      ∣ min2 kernel.kernelProperties.maxThreadsPerBlock gpu.maxThreadsPerMultiProcessor)
    (ht : gpu.warpSize ∣ threadNum gpu kernel) :
    getOccupancyForKernel gpu kernel ≤ getOccupancyForKernel gpu (withBlockSize kernel r) := by
  unfold getOccupancyForKernel
  simp only
  apply div_le_div_of_nonneg_right _ (Nat.cast_nonneg _)
  exact_mod_cast occupiedThreads_withBlockSize gpu kernel fuel r h ha ht

/-- The re-tuned pool, kernel by kernel. -/
theorem retunePool_pairwise (gpu : cudaDeviceProp) (fuel : Nat) :
    ∀ (pool pool' : List AbstractElasticKernel), retunePool gpu fuel pool = some pool' →
      (∀ kernel ∈ pool,
        gpu.warpSize ∣ min2 kernel.kernelProperties.maxThreadsPerBlock
          gpu.maxThreadsPerMultiProcessor ∧
        gpu.warpSize ∣ threadNum gpu kernel) →
      List.Forall₂ (fun kernel kernel' =>
        getOccupancyForKernel gpu kernel ≤ getOccupancyForKernel gpu kernel') pool pool' := by
  intro pool
  induction pool with
  | nil =>
    intro pool' h _
    simp only [retunePool] at h
    rw [← Option.some.inj h]
    exact List.Forall₂.nil
  | cons kernel rest ih =>
    intro pool' h hal
    simp only [retunePool] at h
    split at h
    · next r rest' hr hrest =>
      rw [← Option.some.inj h]
      obtain ⟨ha, ht⟩ := hal kernel (List.mem_cons_self _ _)
      exact List.Forall₂.cons (getOccupancyForKernel_withBlockSize gpu kernel fuel r hr ha ht)
        (ih rest' hrest (fun k hk => hal k (List.mem_cons_of_mem _ hk)))
    · exact absurd h (by simp)

theorem sum_le_of_pairwise (f : AbstractElasticKernel → ℚ) :
    ∀ (pool pool' : List AbstractElasticKernel),
      List.Forall₂ (fun kernel kernel' => f kernel ≤ f kernel') pool pool' →
      (pool.map f).sum ≤ (pool'.map f).sum ∧ pool.length = pool'.length := by
  intro pool pool' h
  induction h with
  | nil => exact ⟨le_refl _, rfl⟩
  | cons hab _ ih =>
    simp only [List.map_cons, List.sum_cons, List.length_cons]
    exact ⟨add_le_add hab ih.1, by rw [ih.2]⟩

/-- C22 (counterexample): on the scenario device, a pool of one kernel registered with 682
threads per block (three resident blocks, occupancy 2046/2048).  The search over the multiples
of 32 up to 704 returns 672 (occupancy 2016/2048): the re-tuned pool has the lower average, and
the kernel the lower occupancy. -/
theorem retunePool_lowers_occupancy :
    retunePool scenarioDevice 23 [offWarpKernel] = some [withBlockSize offWarpKernel 672] ∧
    averageComputeOccupancy scenarioDevice [withBlockSize offWarpKernel 672]
      < averageComputeOccupancy scenarioDevice [offWarpKernel] ∧
    getOccupancyForKernel scenarioDevice (withBlockSize offWarpKernel 672)
      < getOccupancyForKernel scenarioDevice offWarpKernel := by
  have h1 : occupiedThreads scenarioDevice offWarpKernel = 2046 := by decide
  have h2 : occupiedThreads scenarioDevice (withBlockSize offWarpKernel 672) = 2016 := by decide
  have h3 : scenarioDevice.maxThreadsPerMultiProcessor = 2048 := rfl
  refine ⟨by decide, ?_, ?_⟩
  · simp only [averageComputeOccupancy, getOccupancyForKernel, h1, h2, h3, List.map_cons,
      List.map_nil, List.sum_cons, List.sum_nil, List.length_cons, List.length_nil]
    norm_num
  · simp only [getOccupancyForKernel, h1, h2, h3]
    norm_num

/-- More fuel does not change a re-tuned pool. -/
theorem retunePool_add (gpu : cudaDeviceProp) (fuel m : Nat) :
    ∀ (pool pool' : List AbstractElasticKernel), retunePool gpu fuel pool = some pool' →
      retunePool gpu (fuel + m) pool = some pool' := by
  intro pool
  induction pool with
  | nil => intro pool' h; simpa only [retunePool] using h
  | cons kernel rest ih =>
    intro pool' h
    simp only [retunePool] at h ⊢
    split at h
    · next r rest' hr hrest =>
      have h1 : getOptimalBlockSize gpu kernel (fuel + m) = some r :=
        (searchLoop_add gpu kernel.kernelProperties m fuel _ r hr).1
      rw [h1, ih rest' hrest]
      exact h
    · exact absurd h (by simp)

/-- The searches of a pool whose start sizes are multiples of the warp size all return. -/
theorem retunePool_returns (gpu : cudaDeviceProp) :
    ∀ (pool : List AbstractElasticKernel),
      (∀ kernel ∈ pool, gpu.warpSize
        ∣ min2 kernel.kernelProperties.maxThreadsPerBlock gpu.maxThreadsPerMultiProcessor) →
      ∃ fuel pool', retunePool gpu fuel pool = some pool' := by
  intro pool
  induction pool with
  | nil => intro _; exact ⟨0, [], rfl⟩
  | cons kernel rest ih =>
    intro hal
    obtain ⟨fuel1, rest', h1⟩ := ih (fun k hk => hal k (List.mem_cons_of_mem _ hk))
    obtain ⟨r, hr, _⟩ := searchLoop_aligned gpu kernel.kernelProperties _
      (searchStart gpu kernel) (Nat.div_mul_cancel (hal kernel (List.mem_cons_self _ _))).symm
    have h2 := (searchLoop_add gpu kernel.kernelProperties fuel1 _ _ r hr).1
    have h3 := retunePool_add gpu fuel1
      (min2 kernel.kernelProperties.maxThreadsPerBlock gpu.maxThreadsPerMultiProcessor
        / gpu.warpSize + 1) rest rest' h1
    rw [Nat.add_comm] at h3
    refine ⟨min2 kernel.kernelProperties.maxThreadsPerBlock gpu.maxThreadsPerMultiProcessor
      / gpu.warpSize + 1 + fuel1, withBlockSize kernel r :: rest', ?_⟩
    simp only [retunePool]
    have h2' : getOptimalBlockSize gpu kernel
        (min2 kernel.kernelProperties.maxThreadsPerBlock gpu.maxThreadsPerMultiProcessor
          / gpu.warpSize + 1 + fuel1) = some r := h2
    rw [h2', h3]

/-- C22 (amended): on a fixed device, for a pool in which every kernel has a start size
`min(maxThreadsPerBlock, maxThreadsPerMultiProcessor)` and an evaluated block size `threadNum`
that are multiples of the warp size, the searches of `getOptimalBlockSize` all return, and the
average compute occupancy of the pool re-tuned to the block sizes they return is at least the
average with the registered block sizes, and so is the occupancy of each kernel. -/
theorem retunePool_averageComputeOccupancy (gpu : cudaDeviceProp)
    (pool : List AbstractElasticKernel)
    (hal : ∀ kernel ∈ pool,
      gpu.warpSize ∣ min2 kernel.kernelProperties.maxThreadsPerBlock
        gpu.maxThreadsPerMultiProcessor ∧
      gpu.warpSize ∣ threadNum gpu kernel) :
    (∃ fuel pool', retunePool gpu fuel pool = some pool') ∧
    ∀ fuel pool', retunePool gpu fuel pool = some pool' →
      averageComputeOccupancy gpu pool ≤ averageComputeOccupancy gpu pool' ∧
      List.Forall₂ (fun kernel kernel' =>
        getOccupancyForKernel gpu kernel ≤ getOccupancyForKernel gpu kernel') pool pool' := by
  refine ⟨retunePool_returns gpu pool (fun k hk => (hal k hk).1), ?_⟩
  intro fuel pool' hret
  have hall := retunePool_pairwise gpu fuel pool pool' hret hal
  obtain ⟨hsum, hlen⟩ := sum_le_of_pairwise (getOccupancyForKernel gpu) pool pool' hall
  refine ⟨?_, hall⟩
  unfold averageComputeOccupancy
  rw [hlen]
  exact div_le_div_of_nonneg_right hsum (Nat.cast_nonneg _)

theorem retunePool_averageComputeOccupancy_witness :
    retunePool scenarioDevice 40 [scenarioElasticKernel 256 112 4096, boundedKernel 992]
      = some [withBlockSize (scenarioElasticKernel 256 112 4096) 1024,
          withBlockSize (boundedKernel 992) 512] ∧
    averageComputeOccupancy scenarioDevice
        [scenarioElasticKernel 256 112 4096, boundedKernel 992]
      ≤ averageComputeOccupancy scenarioDevice
        [withBlockSize (scenarioElasticKernel 256 112 4096) 1024,
          withBlockSize (boundedKernel 992) 512] ∧
    List.Forall₂ (fun kernel kernel' =>
      getOccupancyForKernel scenarioDevice kernel ≤ getOccupancyForKernel scenarioDevice kernel')
      [scenarioElasticKernel 256 112 4096, boundedKernel 992]
      [withBlockSize (scenarioElasticKernel 256 112 4096) 1024,
        withBlockSize (boundedKernel 992) 512] :=
  ⟨by decide,
    (retunePool_averageComputeOccupancy scenarioDevice
      [scenarioElasticKernel 256 112 4096, boundedKernel 992] (by decide)).2 40
      [withBlockSize (scenarioElasticKernel 256 112 4096) 1024,
        withBlockSize (boundedKernel 992) 512] (by decide)⟩

end OccupancyCalculator
